import Mathlib

/-
  Verification development for the coalesce cross-language translation
  platform.  The definitions below are a shallow embedding of the Rust
  sources (crates coalesce-core, coalesce-lal, coalesce-parser); theorems
  settle the specification claims about them.
-/

set_option maxRecDepth 4096

namespace Coalesce

/-! ## JSON values

Shallow model of `serde_json::Value` as it is used by the repository:
the annotation maps store string-keyed JSON values.  Numbers in the
repository are only byte offsets (`usize`), so they are modelled as `Nat`. -/

inductive Json where
  | null : Json
  | bool (b : Bool) : Json
  | num (n : Nat) : Json
  | str (s : String) : Json
  | arr (xs : List Json) : Json
  | obj (fields : List (String × Json)) : Json

/-! ## Association lists

`HashMap<K, V>` is modelled as an insertion-ordered association list:
`insert` overwrites in place (last write wins, as for `HashMap::insert`)
and iteration enumerates entries in first-insertion order. -/

def alookup {κ α : Type} [DecidableEq κ] (m : List (κ × α)) (k : κ) : Option α :=
  match m with
  | [] => none
  | (k2, v) :: rest => if k2 = k then some v else alookup rest k

def ainsert {κ α : Type} [DecidableEq κ] (m : List (κ × α)) (k : κ) (v : α) :
    List (κ × α) :=
  match m with
  | [] => [(k, v)]
  | (k2, v2) :: rest => if k2 = k then (k2, v) :: rest else (k2, v2) :: ainsert rest k v

/-! ## Core data model (coalesce-core/src/types.rs) -/

inductive Language where
  | JavaScript | TypeScript | Python | Rust | Go | Java | CSharp
  | FSharp | VisualBasic | Cobol | Fortran | C | Cpp
deriving DecidableEq

inductive LoopType where
  | For | While | DoWhile | ForEach
deriving DecidableEq

inductive ControlFlowType where
  | Conditional
  | Loop (t : LoopType)
  | Switch
  | Try
  | Goto
deriving DecidableEq

inductive ExpressionType where
  | Literal | Variable | FunctionCall | Arithmetic | Comparison | Logical | Assignment
deriving DecidableEq

inductive StatementType where
  | Expression | Return | Break | Continue | Throw
deriving DecidableEq

inductive NodeType where
  | Module | Function | Class | Interface | Variable | Constant
  | ControlFlow (t : ControlFlowType)
  | Expression (t : ExpressionType)
  | Statement (t : StatementType)
deriving DecidableEq

structure LegacyPattern where
  pattern_type : String
  original_construct : String
  modernization_hint : Option String
  preserve_exactly : Bool
deriving DecidableEq

structure SourceLocation where
  file : String
  start_line : Nat
  end_line : Nat
  start_column : Nat
  end_column : Nat
deriving DecidableEq

/-- Embeds `Metadata` from types.rs.  `complexity_score` is an `Option<f32>` that the
embedded code only ever leaves as `None`; it is modelled as `Option Rat`. -/
structure Metadata where
  source_language : Language
  semantic_tags : List String
  complexity_score : Option Rat
  dependencies : List String
  annotations : List (String × Json)
  legacy_patterns : List LegacyPattern

/-- Embeds `Metadata::default()`: JavaScript source language and empty collections. -/
def Metadata.default : Metadata :=
  ⟨Language.JavaScript, [], none, [], [], []⟩

inductive UIRNode where
  | mk (id : String) (node_type : NodeType) (name : Option String)
       (children : List UIRNode) (metadata : Metadata)
       (source_location : Option SourceLocation)

def UIRNode.id : UIRNode → String
  | .mk i _ _ _ _ _ => i

def UIRNode.node_type : UIRNode → NodeType
  | .mk _ nt _ _ _ _ => nt

def UIRNode.name : UIRNode → Option String
  | .mk _ _ nm _ _ _ => nm

def UIRNode.children : UIRNode → List UIRNode
  | .mk _ _ _ cs _ _ => cs

def UIRNode.metadata : UIRNode → Metadata
  | .mk _ _ _ _ md _ => md

def UIRNode.source_location : UIRNode → Option SourceLocation
  | .mk _ _ _ _ _ loc => loc

/-- Replace the children of a node (used for the transformer's recursion). -/
def UIRNode.setChildren : UIRNode → List UIRNode → UIRNode
  | .mk i nt nm _ md loc, cs => .mk i nt nm cs md loc

/-- Replace the annotation map inside a node's metadata. -/
def UIRNode.setAnnotations : UIRNode → List (String × Json) → UIRNode
  | .mk i nt nm cs md loc, ann =>
      .mk i nt nm cs { md with annotations := ann } loc

/-! ## Errors (coalesce-core/src/errors.rs)

`IoError` wraps `std::io::Error` and `SerializationError` wraps
`serde_json::Error`; both payloads are modelled by their message strings. -/

inductive CoalesceError where
  | ParseError (message : String) (line : Nat) (column : Nat)
  | GenerationError (msg : String)
  | MLError (msg : String)
  | IoError (msg : String)
  | SerializationError (msg : String)
  | UnsupportedLanguage (lang : Language)
  | TransformationError (msg : String)
  | LegacyPatternError (pat : String)
deriving DecidableEq

/-! ## Library Abstraction Layer data (coalesce-lal/src/lib.rs, patterns.rs) -/

structure LibraryUsage where
  pattern_name : String
  method_name : String
  parameters : List (String × String)
  semantic_intent : String
  source_location : Nat × Nat
deriving DecidableEq

structure LibraryDependency where
  name : String
  version : Option String
  ecosystem : String
  import_path : Option String
  usage_patterns : List LibraryUsage
deriving DecidableEq

structure PatternSemantics where
  intent : String
  category : String
  behavior : String
  side_effects : List String
  requirements : List String
  mutability : Bool
  reactivity : Bool
deriving DecidableEq

structure PatternParameter where
  name : String
  param_type : String
  required : Bool
  default_value : Option String
  description : String
deriving DecidableEq

structure TransformRule where
  target_library : String
  target_pattern : String
  template : String
  imports : List String
  setup_code : Option String
  cleanup_code : Option String
  parameter_mappings : List (String × String)
deriving DecidableEq

structure LibraryPattern where
  name : String
  library : String
  ecosystem : String
  signature : String
  semantics : PatternSemantics
  parameters : List PatternParameter
  transformations : List (String × TransformRule)
deriving DecidableEq

/-! ## JSON text parsing and decoding

Models `serde_json::from_str::<LibraryDependency>`.  The grammar subset
covers everything `serde_json` produces when serializing a
`LibraryDependency` (objects, arrays, strings with escapes, decimal
naturals, `null`, booleans).  Error messages are the model's own; only the
success/failure outcome and the produced value are relied on. -/

def quoteChar : Char := Char.ofNat 34

def lbraceChar : Char := Char.ofNat 123

def rbraceChar : Char := Char.ofNat 125

def apostChar : Char := Char.ofNat 39

def isJsonWs (c : Char) : Bool :=
  c = ' ' || c = Char.ofNat 9 || c = Char.ofNat 10 || c = Char.ofNat 13

def skipWs : List Char → List Char
  | [] => []
  | c :: t => if isJsonWs c then skipWs t else c :: t

/-- Parse the body of a JSON string after the opening quote, handling the
escapes `\"`, `\\`, `\/`, `\n`, `\t`, `\r`. -/
def parseStrBody : Nat → List Char → List Char → Option (String × List Char)
  | 0, _, _ => none
  | _ + 1, _, [] => none
  | f + 1, acc, c :: t =>
    if c = quoteChar then some (String.mk acc.reverse, t)
    else if c = '\\' then
      match t with
      | [] => none
      | e :: t2 =>
        if e = quoteChar then parseStrBody f (quoteChar :: acc) t2
        else if e = '\\' then parseStrBody f ('\\' :: acc) t2
        else if e = '/' then parseStrBody f ('/' :: acc) t2
        else if e = 'n' then parseStrBody f (Char.ofNat 10 :: acc) t2
        else if e = 't' then parseStrBody f (Char.ofNat 9 :: acc) t2
        else if e = 'r' then parseStrBody f (Char.ofNat 13 :: acc) t2
        else none
    else parseStrBody f (c :: acc) t

def parseNatBody : List Char → Nat → Nat × List Char
  | [], acc => (acc, [])
  | c :: t, acc =>
    if c.isDigit then parseNatBody t (acc * 10 + (c.toNat - 48))
    else (acc, c :: t)

mutual

def parseVal : Nat → List Char → Option (Json × List Char)
  | 0, _ => none
  | f + 1, s =>
    match skipWs s with
    | [] => none
    | c :: t =>
      if c = 'n' then
        match t with
        | 'u' :: 'l' :: 'l' :: r => some (.null, r)
        | _ => none
      else if c = 't' then
        match t with
        | 'r' :: 'u' :: 'e' :: r => some (.bool true, r)
        | _ => none
      else if c = 'f' then
        match t with
        | 'a' :: 'l' :: 's' :: 'e' :: r => some (.bool false, r)
        | _ => none
      else if c = quoteChar then
        match parseStrBody (t.length + 1) [] t with
        | some (x, r) => some (.str x, r)
        | none => none
      else if c = '[' then
        match skipWs t with
        | ']' :: r => some (.arr [], r)
        | t2 => parseArrElems f t2 []
      else if c = lbraceChar then
        match skipWs t with
        | t2 =>
          if t2.headD ' ' = rbraceChar then some (.obj [], t2.tail)
          else parseObjFields f t2 []
      else if c.isDigit then
        let (n, r) := parseNatBody (c :: t) 0
        some (.num n, r)
      else none

def parseArrElems : Nat → List Char → List Json → Option (Json × List Char)
  | 0, _, _ => none
  | f + 1, s, acc =>
    match parseVal f s with
    | none => none
    | some (v, r) =>
      match skipWs r with
      | ',' :: r2 => parseArrElems f r2 (acc ++ [v])
      | ']' :: r2 => some (.arr (acc ++ [v]), r2)
      | _ => none

def parseObjFields : Nat → List Char → List (String × Json) → Option (Json × List Char)
  | 0, _, _ => none
  | f + 1, s, acc =>
    match skipWs s with
    | c :: t =>
      if c = quoteChar then
        match parseStrBody (t.length + 1) [] t with
        | none => none
        | some (k, r) =>
          match skipWs r with
          | ':' :: r2 =>
            match parseVal f r2 with
            | none => none
            | some (v, r3) =>
              match skipWs r3 with
              | ',' :: r4 => parseObjFields f r4 (acc ++ [(k, v)])
              | r4 =>
                if r4.headD ' ' = rbraceChar then some (.obj (acc ++ [(k, v)]), r4.tail)
                else none
          | _ => none
      else none
    | [] => none

end

def parseJson (s : String) : Except String Json :=
  match parseVal (s.length * 4 + 64) s.toList with
  | some (j, rest) => if (skipWs rest).isEmpty then .ok j else .error "trailing characters"
  | none => .error "invalid JSON"

def decodeString : Json → Except String String
  | .str s => .ok s
  | _ => .error "expected string"

/-- serde treats a missing or `null` `Option<String>` field as `None`. -/
def decodeOptString : Option Json → Except String (Option String)
  | none => .ok none
  | some .null => .ok none
  | some (.str s) => .ok (some s)
  | some _ => .error "expected string or null"

def decodeStringPair : String × Json → Except String (String × String)
  | (k, .str v) => .ok (k, v)
  | _ => .error "expected string value"

def decodeUsage (j : Json) : Except String LibraryUsage :=
  match j with
  | .obj fields => do
    let pn ← match alookup fields "pattern_name" with
      | some v => decodeString v
      | none => .error "missing pattern_name"
    let mn ← match alookup fields "method_name" with
      | some v => decodeString v
      | none => .error "missing method_name"
    let ps ← match alookup fields "parameters" with
      | some (.obj kvs) => kvs.mapM decodeStringPair
      | _ => .error "missing parameters"
    let si ← match alookup fields "semantic_intent" with
      | some v => decodeString v
      | none => .error "missing semantic_intent"
    let loc ← match alookup fields "source_location" with
      | some (.arr [.num a, .num b]) => .ok (a, b)
      | _ => .error "missing source_location"
    .ok ⟨pn, mn, ps, si, loc⟩
  | _ => .error "expected object"

def decodeLibraryDependency (j : Json) : Except String LibraryDependency :=
  match j with
  | .obj fields => do
    let nm ← match alookup fields "name" with
      | some v => decodeString v
      | none => .error "missing name"
    let ver ← decodeOptString (alookup fields "version")
    let eco ← match alookup fields "ecosystem" with
      | some v => decodeString v
      | none => .error "missing ecosystem"
    let ip ← decodeOptString (alookup fields "import_path")
    let ups ← match alookup fields "usage_patterns" with
      | some (.arr xs) => xs.mapM decodeUsage
      | _ => .error "missing usage_patterns"
    .ok ⟨nm, ver, eco, ip, ups⟩
  | _ => .error "expected object"

/-- Model of `serde_json::from_str::<LibraryDependency>`. -/
def from_str_library_dependency (s : String) : Except String LibraryDependency := do
  decodeLibraryDependency (← parseJson s)

/-! ## Regular expressions (the `regex` crate as used by the detector)

The detector's signatures are fixed regexes.  They are embedded as ASTs
and matched with a leftmost-first greedy backtracking interpreter, which
agrees with the `regex` crate's leftmost-first semantics on the pattern
shapes the detector uses (literals, classes, greedy `*`/`+`, named
groups; no alternation under repetition). -/

inductive CClass where
  | lit (c : Char)
  | dot
  | word
  | space
  | digit
  | noneOf (cs : List Char)
  | oneOf (cs : List Char)

/-- Character-class membership.  `\w`, `\s`, `\d` and `.` follow the
`regex` crate's definitions restricted to ASCII (all detector inputs in
this development are ASCII). -/
def CClass.test : CClass → Char → Bool
  | .lit a, c => a = c
  | .dot, c => c ≠ Char.ofNat 10
  | .word, c => c.isAlphanum || c = '_'
  | .space, c =>
      c = ' ' || c = Char.ofNat 9 || c = Char.ofNat 10 || c = Char.ofNat 11 ||
      c = Char.ofNat 12 || c = Char.ofNat 13
  | .digit, c => c.isDigit
  | .noneOf cs, c => !(cs.contains c)
  | .oneOf cs, c => cs.contains c

inductive Rx where
  | eps
  | cls (c : CClass)
  | seq (a b : Rx)
  | alt (a b : Rx)
  | star (r : Rx)
  | grp (name : String) (r : Rx)

/-- Literal string as a regex. -/
def rstr (s : String) : Rx :=
  (s.toList.map (fun c => Rx.cls (CClass.lit c))).foldr Rx.seq Rx.eps

def rxcat (rs : List Rx) : Rx := rs.foldr Rx.seq Rx.eps

/-- Greedy `+` on a class. -/
def rplus (c : CClass) : Rx := .seq (.cls c) (.star (.cls c))

/-- Embeds `\s*` -/
def wsStar : Rx := .star (.cls .space)

/-- Embeds `\s+` -/
def wsPlus : Rx := rplus .space

abbrev Caps := List (String × String)

/-- Backtracking matcher in continuation-passing style.  Greedy: `star`
first tries to consume another iteration (requiring progress) and only
then falls through to the continuation; `alt` prefers its left branch.
Fuel only guards termination and is chosen large enough at call sites. -/
def rmatch : Nat → Rx → List Char → Caps →
    (List Char → Caps → Option (List Char × Caps)) → Option (List Char × Caps)
  | 0, _, _, _, _ => none
  | _ + 1, .eps, s, cp, k => k s cp
  | _ + 1, .cls c, s, cp, k =>
    match s with
    | [] => none
    | a :: t => if c.test a then k t cp else none
  | f + 1, .seq a b, s, cp, k => rmatch f a s cp (fun s2 cp2 => rmatch f b s2 cp2 k)
  | f + 1, .alt a b, s, cp, k =>
    match rmatch f a s cp k with
    | some r => some r
    | none => rmatch f b s cp k
  | f + 1, .star r, s, cp, k =>
    match rmatch f r s cp (fun s2 cp2 =>
        if s2.length < s.length then rmatch f (.star r) s2 cp2 k else none) with
    | some r2 => some r2
    | none => k s cp
  | f + 1, .grp n r, s, cp, k =>
    rmatch f r s cp (fun s2 cp2 =>
      k s2 (ainsert cp2 n (String.mk (s.take (s.length - s2.length)))))

/-- Fuel that dominates every search the detector's patterns perform. -/
def matchFuel (s : List Char) : Nat := 400 * (s.length + 5)

/-- Try to match `rx` at offset `i` of `s`; returns consumed length and
captures of the greedy-first match. -/
def findAt (rx : Rx) (s : List Char) (i : Nat) : Option (Nat × Caps) :=
  match rmatch (matchFuel s) rx (s.drop i) [] (fun rest cp => some (rest, cp)) with
  | some (rest, cp) => some ((s.length - i) - rest.length, cp)
  | none => none

structure RMatch where
  mstart : Nat
  mend : Nat
  mtext : String
  mcaps : Caps

/-- Scan offsets `i, i+1, …` (at most `j` of them) for the leftmost match. -/
def scanFrom (rx : Rx) (s : List Char) : Nat → Nat → Option RMatch
  | 0, _ => none
  | j + 1, i =>
    match findAt rx s i with
    | some (len, cp) => some ⟨i, i + len, String.mk ((s.drop i).take len), cp⟩
    | none => scanFrom rx s j (i + 1)

/-- Embeds `Regex::is_match`. -/
def rIsMatch (rx : Rx) (s : List Char) : Bool :=
  (scanFrom rx s (s.length + 1) 0).isSome

/-- Embeds `Regex::captures_iter`: successive non-overlapping leftmost matches;
an empty match advances the scan position by one. -/
def capturesFrom (rx : Rx) (s : List Char) : Nat → Nat → List RMatch
  | 0, _ => []
  | j + 1, i =>
    if i > s.length then []
    else
      match scanFrom rx s (s.length + 1 - i) i with
      | none => []
      | some m => m :: capturesFrom rx s j (if i < m.mend then m.mend else i + 1)

def capturesIter (rx : Rx) (s : List Char) : List RMatch :=
  capturesFrom rx s (s.length + 1) 0

/-! ## Dependency detector (coalesce-lal/src/detector.rs) -/

structure UsagePattern where
  name : String
  regex : Rx
  semantic_intent : String
  extract_params : List String

structure DetectionPattern where
  library_name : String
  import_regex : Rx
  usage_patterns : List UsagePattern
  ecosystem : String

/-- Embeds `import.*\{[^}]*HOOK[^}]*\}.*from.*['"]react['"]` -/
def react_import_rx (hook : String) : Rx :=
  rxcat [rstr "import", .star (.cls .dot), .cls (.lit lbraceChar),
         .star (.cls (.noneOf [rbraceChar])), rstr hook,
         .star (.cls (.noneOf [rbraceChar])), .cls (.lit rbraceChar),
         .star (.cls .dot), rstr "from", .star (.cls .dot),
         .cls (.oneOf [apostChar, quoteChar]), rstr "react",
         .cls (.oneOf [apostChar, quoteChar])]

/-- Embeds `const\s*\[\s*(?P<state>\w+)\s*,\s*(?P<setter>\w+)\s*\]\s*=\s*useState\s*\(\s*(?P<initial>[^)]*)\s*\)` -/
def useState_usage_rx : Rx :=
  rxcat [rstr "const", wsStar, .cls (.lit '['), wsStar,
         .grp "state" (rplus .word), wsStar, .cls (.lit ','), wsStar,
         .grp "setter" (rplus .word), wsStar, .cls (.lit ']'), wsStar,
         .cls (.lit '='), wsStar, rstr "useState", wsStar, .cls (.lit '('), wsStar,
         .grp "initial" (.star (.cls (.noneOf [')']))), wsStar, .cls (.lit ')')]

/-- Embeds `useEffect\s*\(\s*(?P<callback>[^,]+)\s*,\s*(?P<deps>\[[^\]]*\])\s*\)` -/
def useEffect_usage_rx : Rx :=
  rxcat [rstr "useEffect", wsStar, .cls (.lit '('), wsStar,
         .grp "callback" (rplus (.noneOf [','])), wsStar, .cls (.lit ','), wsStar,
         .grp "deps" (rxcat [.cls (.lit '['), .star (.cls (.noneOf [']'])), .cls (.lit ']')]),
         wsStar, .cls (.lit ')')]

/-- Embeds `from\s+django\.db\s+import\s+models` -/
def django_import_rx : Rx :=
  rxcat [rstr "from", wsPlus, rstr "django.db", wsPlus, rstr "import", wsPlus, rstr "models"]

/-- Embeds `class\s+(?P<name>\w+)\s*\(\s*models\.Model\s*\)` -/
def django_model_rx : Rx :=
  rxcat [rstr "class", wsPlus, .grp "name" (rplus .word), wsStar, .cls (.lit '('),
         wsStar, rstr "models.Model", wsStar, .cls (.lit ')')]

/-- Embeds `(?P<field>\w+)\s*=\s*models\.CharField\s*\(\s*max_length\s*=\s*(?P<length>\d+)` -/
def django_charfield_rx : Rx :=
  rxcat [.grp "field" (rplus .word), wsStar, .cls (.lit '='), wsStar,
         rstr "models.CharField", wsStar, .cls (.lit '('), wsStar,
         rstr "max_length", wsStar, .cls (.lit '='), wsStar,
         .grp "length" (rplus .digit)]

/-- Embeds `#include\s+<sys/socket\.h>` -/
def c_socket_import_rx : Rx :=
  rxcat [rstr "#include", wsPlus, rstr "<sys/socket.h>"]

/-- Embeds `(?P<var>\w+)\s*=\s*socket\s*\(\s*(?P<family>AF_\w+)\s*,\s*(?P<type>SOCK_\w+)\s*,\s*(?P<protocol>\d+)\s*\)` -/
def c_socket_usage_rx : Rx :=
  rxcat [.grp "var" (rplus .word), wsStar, .cls (.lit '='), wsStar,
         rstr "socket", wsStar, .cls (.lit '('), wsStar,
         .grp "family" (rxcat [rstr "AF_", rplus .word]), wsStar, .cls (.lit ','), wsStar,
         .grp "type" (rxcat [rstr "SOCK_", rplus .word]), wsStar, .cls (.lit ','), wsStar,
         .grp "protocol" (rplus .digit), wsStar, .cls (.lit ')')]

/-- Embeds `register_react_patterns` (two patterns, both for library "react"). -/
def react_detection_patterns : List DetectionPattern :=
  [ { library_name := "react"
      import_regex := react_import_rx "useState"
      ecosystem := "javascript"
      usage_patterns := [
        { name := "useState"
          regex := useState_usage_rx
          semantic_intent := "reactive_state_management"
          extract_params := ["state", "setter", "initial"] } ] },
    { library_name := "react"
      import_regex := react_import_rx "useEffect"
      ecosystem := "javascript"
      usage_patterns := [
        { name := "useEffect"
          regex := useEffect_usage_rx
          semantic_intent := "side_effect_lifecycle"
          extract_params := ["callback", "deps"] } ] } ]

/-- Embeds `register_django_patterns`. -/
def django_detection_patterns : List DetectionPattern :=
  [ { library_name := "django"
      import_regex := django_import_rx
      ecosystem := "python"
      usage_patterns := [
        { name := "Model"
          regex := django_model_rx
          semantic_intent := "orm_model"
          extract_params := ["name"] },
        { name := "CharField"
          regex := django_charfield_rx
          semantic_intent := "text_field"
          extract_params := ["field", "length"] } ] } ]

/-- Embeds `register_networking_patterns` (C patterns). -/
def c_detection_patterns : List DetectionPattern :=
  [ { library_name := "socket"
      import_regex := c_socket_import_rx
      ecosystem := "c"
      usage_patterns := [
        { name := "socket"
          regex := c_socket_usage_rx
          semantic_intent := "tcp_socket_creation"
          extract_params := ["var", "family", "type"] } ] } ]

/-- The pattern table built by `DependencyDetector::new` /
`register_default_patterns`. -/
def detector_patterns : List (Language × List DetectionPattern) :=
  [ (Language.JavaScript, react_detection_patterns),
    (Language.Python, django_detection_patterns),
    (Language.C, c_detection_patterns) ]

/-- The usage-collection loop of
`DependencyDetector::detect_library_usage`: all non-overlapping matches
of every usage signature, with named capture groups copied into the
parameter map and `method_name` set to the full matched text. -/
def gather_usages (code : List Char) (p : DetectionPattern) : List LibraryUsage :=
  p.usage_patterns.flatMap (fun up =>
    (capturesIter up.regex code).map (fun m =>
      { pattern_name := up.name
        method_name := m.mtext
        parameters := up.extract_params.filterMap (fun pn =>
          (alookup m.mcaps pn).map (fun v => (pn, v)))
        semantic_intent := up.semantic_intent
        source_location := (m.mstart, m.mend) }))

/-- Embeds `DependencyDetector::detect_library_usage`.  The source returns
`Result<Option<…>>` but has no failure path (`capture.get(0)` on a match
always succeeds), so the embedding returns `Option` directly. -/
def detect_library_usage (code : List Char) (p : DetectionPattern) :
    Option LibraryDependency :=
  if !(rIsMatch p.import_regex code) then none
  else if (gather_usages code p).isEmpty then none
  else some
    { name := p.library_name
      version := none
      ecosystem := p.ecosystem
      import_path := none
      usage_patterns := gather_usages code p }

/-- Embeds `DependencyDetector::detect_dependencies`. -/
def detect_dependencies (code : String) (language : Language) :
    Except CoalesceError (List LibraryDependency) :=
  match alookup detector_patterns language with
  | none => .error (.UnsupportedLanguage language)
  | some pats => .ok (pats.filterMap (detect_library_usage code.toList))

/-! ## Built-in pattern library (coalesce-lal/src/patterns.rs) -/

/-- Embeds `PatternLibrary::react_patterns`. -/
def react_patterns : List LibraryPattern :=
  [ { name := "useState"
      library := "react"
      ecosystem := "javascript"
      signature := "const [state, setState] = useState(initialValue)"
      semantics :=
        { intent := "reactive_state_management"
          category := "state"
          behavior := "Creates reactive state that triggers re-renders"
          side_effects := ["component_rerender"]
          requirements := ["react_component_context"]
          mutability := true
          reactivity := true }
      parameters := [
        { name := "initialValue"
          param_type := "any"
          required := true
          default_value := some "undefined"
          description := "Initial state value" } ]
      transformations := [
        ("vue",
          { target_library := "vue"
            target_pattern := "ref"
            template := "const \x7b\x7bstate\x7d\x7d = ref(\x7b\x7binitialValue\x7d\x7d)"
            imports := ["import \x7b ref \x7d from \x27vue\x27"]
            setup_code := none
            cleanup_code := none
            parameter_mappings := [("setState", "\x7b\x7bstate\x7d\x7d.value = ")] }),
        ("svelte",
          { target_library := "svelte"
            target_pattern := "writable"
            template := "const \x7b\x7bstate\x7d\x7d = writable(\x7b\x7binitialValue\x7d\x7d)"
            imports := ["import \x7b writable \x7d from \x27svelte/store\x27"]
            setup_code := none
            cleanup_code := none
            parameter_mappings := [] }) ] },
    { name := "useEffect"
      library := "react"
      ecosystem := "javascript"
      signature := "useEffect(callback, dependencies)"
      semantics :=
        { intent := "side_effect_lifecycle"
          category := "lifecycle"
          behavior := "Executes side effects after render"
          side_effects := ["dom_mutation", "api_calls", "subscriptions"]
          requirements := ["react_component_context"]
          mutability := false
          reactivity := true }
      parameters := [
        { name := "callback"
          param_type := "function"
          required := true
          default_value := none
          description := "Effect callback function" },
        { name := "dependencies"
          param_type := "array"
          required := false
          default_value := some "[]"
          description := "Dependency array" } ]
      transformations := [
        ("vue",
          { target_library := "vue"
            target_pattern := "watchEffect"
            template := "watchEffect(() => \x7b \x7b\x7bcallback\x7d\x7d \x7d)"
            imports := ["import \x7b watchEffect \x7d from \x27vue\x27"]
            setup_code := none
            cleanup_code := none
            parameter_mappings := [] }) ] } ]

/-- Embeds `PatternLibrary::django_patterns`. -/
def django_patterns : List LibraryPattern :=
  [ { name := "Model"
      library := "django"
      ecosystem := "python"
      signature := "class MyModel(models.Model)"
      semantics :=
        { intent := "orm_model"
          category := "database"
          behavior := "Defines a database table structure"
          side_effects := ["database_table_creation"]
          requirements := ["django_orm"]
          mutability := true
          reactivity := false }
      parameters := []
      transformations := [
        ("sqlalchemy",
          { target_library := "sqlalchemy"
            target_pattern := "declarative_base"
            template := "class \x7b\x7bname\x7d\x7d(Base):\n    __tablename__ = \x27\x7b\x7btable_name\x7d\x7d\x27"
            imports := [
              "from sqlalchemy.ext.declarative import declarative_base",
              "Base = declarative_base()" ]
            setup_code := none
            cleanup_code := none
            parameter_mappings := [] }) ] },
    { name := "CharField"
      library := "django"
      ecosystem := "python"
      signature := "field = models.CharField(max_length=100)"
      semantics :=
        { intent := "text_field"
          category := "database_field"
          behavior := "Defines a text field in database"
          side_effects := ["database_column_creation"]
          requirements := ["django_model"]
          mutability := true
          reactivity := false }
      parameters := [
        { name := "max_length"
          param_type := "integer"
          required := true
          default_value := none
          description := "Maximum character length" } ]
      transformations := [
        ("sqlalchemy",
          { target_library := "sqlalchemy"
            target_pattern := "String"
            template := "\x7b\x7bfield_name\x7d\x7d = Column(String(\x7b\x7bmax_length\x7d\x7d))"
            imports := ["from sqlalchemy import Column, String"]
            setup_code := none
            cleanup_code := none
            parameter_mappings := [] }) ] } ]

/-- Embeds `PatternLibrary::networking_patterns`: a single pattern registered under
the name "tcp_socket" for library "socket". -/
def networking_patterns : List LibraryPattern :=
  [ { name := "tcp_socket"
      library := "socket"
      ecosystem := "c"
      signature := "int sock = socket(AF_INET, SOCK_STREAM, 0)"
      semantics :=
        { intent := "tcp_socket_creation"
          category := "networking"
          behavior := "Creates a TCP socket for network communication"
          side_effects := ["system_resource_allocation"]
          requirements := ["socket_library"]
          mutability := false
          reactivity := false }
      parameters := []
      transformations := [
        ("rust",
          { target_library := "std"
            target_pattern := "TcpStream"
            template := "let stream = TcpStream::connect(\"\x7b\x7baddress\x7d\x7d:\x7b\x7bport\x7d\x7d\")"
            imports := ["use std::net::TcpStream"]
            setup_code := none
            cleanup_code := none
            parameter_mappings := [] }),
        ("go",
          { target_library := "net"
            target_pattern := "Dial"
            template := "conn, err := net.Dial(\"tcp\", \"\x7b\x7baddress\x7d\x7d:\x7b\x7bport\x7d\x7d\")"
            imports := ["import \"net\""]
            setup_code := none
            cleanup_code := none
            parameter_mappings := [] }),
        ("python",
          { target_library := "socket"
            target_pattern := "socket"
            template := "sock = socket.socket(socket.AF_INET, socket.SOCK_STREAM)"
            imports := ["import socket"]
            setup_code := none
            cleanup_code := none
            parameter_mappings := [] }) ] } ]

/-! ## Pattern registry (coalesce-lal/src/registry.rs) -/

structure LibraryRegistry where
  patterns : List (String × List (String × LibraryPattern))
  ecosystems : List (String × List String)

/-- Embeds `LibraryRegistry::new`. -/
def LibraryRegistry.new : LibraryRegistry := ⟨[], []⟩

/-- Embeds `LibraryRegistry::register_pattern`: entry keyed by library, then by
pattern name; last write wins.  The source returns `Result` but never
fails. -/
def register_pattern (reg : LibraryRegistry) (pat : LibraryPattern) : LibraryRegistry :=
  match alookup reg.patterns pat.library with
  | some ps => { reg with patterns := ainsert reg.patterns pat.library (ainsert ps pat.name pat) }
  | none => { reg with patterns := ainsert reg.patterns pat.library [(pat.name, pat)] }

/-- Embeds `LibraryRegistry::get_pattern`. -/
def get_pattern (reg : LibraryRegistry) (library pattern_name : String) :
    Option LibraryPattern :=
  match alookup reg.patterns library with
  | some ps => alookup ps pattern_name
  | none => none

/-- Embeds `LibraryRegistry::find_equivalent_patterns`: linear scan over all
registered patterns comparing `semantics.intent`. -/
def find_equivalent_patterns (reg : LibraryRegistry) (semantic_intent : String) :
    List LibraryPattern :=
  reg.patterns.flatMap (fun lp =>
    lp.2.flatMap (fun p => if p.2.semantics.intent = semantic_intent then [p.2] else []))

/-- Embeds `register_ecosystem_mappings`. -/
def register_ecosystem_mappings (reg : LibraryRegistry) : LibraryRegistry :=
  let e1 := ainsert reg.ecosystems "react" ["vue", "svelte", "angular", "vanilla"]
  let e2 := ainsert e1 "django" ["sqlalchemy", "fastapi", "flask"]
  let e3 := ainsert e2 "socket" ["rust", "go", "python", "javascript"]
  { reg with ecosystems := e3 }

/-- Embeds `LibraryRegistry::register_defaults` starting from `new` (as built by
`LibraryAbstractionLayer::new` and `LibraryRegistry::default`). -/
def default_registry : LibraryRegistry :=
  register_ecosystem_mappings
    ((react_patterns ++ django_patterns ++ networking_patterns).foldl
      register_pattern LibraryRegistry.new)

/-- Embeds `LibraryRegistry::get_target_ecosystems`. -/
def get_target_ecosystems (reg : LibraryRegistry) (source_library : String) : List String :=
  (alookup reg.ecosystems source_library).getD []

inductive SuggestionType where
  | DirectTransform
  | SemanticEquivalent
  | ManualImplementation
  | PartialTransform
deriving DecidableEq

/-- Embeds `TransformationSuggestion`; `confidence: f32` is modelled as `Rat`
(the code only uses the exactly representable ordering 1.0 > 0.8). -/
structure TransformationSuggestion where
  confidence : Rat
  suggestion_type : SuggestionType
  target_library : String
  target_pattern : String
  description : String
deriving DecidableEq

/-- Stable insertion: place `x` before the first element whose confidence
is not larger.  This computes the same list as Rust's stable
`sort_by(|a, b| b.confidence.partial_cmp(&a.confidence).unwrap())`
(descending, ties in original order). -/
def insertByConfidence (x : TransformationSuggestion) :
    List TransformationSuggestion → List TransformationSuggestion
  | [] => [x]
  | y :: ys => if x.confidence ≥ y.confidence then x :: y :: ys else y :: insertByConfidence x ys

def sortByConfidenceDesc : List TransformationSuggestion → List TransformationSuggestion
  | [] => []
  | x :: xs => insertByConfidence x (sortByConfidenceDesc xs)

/-- Embeds `LibraryRegistry::get_transformation_suggestions`. -/
def get_transformation_suggestions (reg : LibraryRegistry)
    (source_library pattern_name target_ecosystem : String) :
    List TransformationSuggestion :=
  let suggestions :=
    match get_pattern reg source_library pattern_name with
    | none => []
    | some pat =>
      let direct :=
        match alookup pat.transformations target_ecosystem with
        | some rule =>
          [{ confidence := 1
             suggestion_type := .DirectTransform
             target_library := rule.target_library
             target_pattern := rule.target_pattern
             description := "Direct transformation to " ++ target_ecosystem }]
        | none => []
      let equivs :=
        (find_equivalent_patterns reg pat.semantics.intent).filterMap (fun q =>
          if q.ecosystem = target_ecosystem ∧ q.library ≠ source_library then
            some { confidence := (4 : Rat) / 5
                   suggestion_type := .SemanticEquivalent
                   target_library := q.library
                   target_pattern := q.name
                   description := "Semantic equivalent: " ++ q.name }
          else none)
      direct ++ equivs
  sortByConfidenceDesc suggestions

/-! ## Library transformer (coalesce-lal/src/transformer.rs) -/

/-- Embeds `LibraryTransformer::get_default_ecosystem`. -/
def get_default_ecosystem : Language → String
  | .JavaScript => "vanilla"
  | .Python => "stdlib"
  | .Rust => "std"
  | .Go => "stdlib"
  | .C => "stdlib"
  | .Cpp => "std"
  | .CSharp => "dotnet"
  | .FSharp => "dotnet"
  | .VisualBasic => "dotnet"
  | _ => "stdlib"

/-- Embeds `target_ecosystem.unwrap_or(default_ecosystem)` in
`transform_library_node`. -/
def resolve_ecosystem (target_lang : Language) (target_ecosystem : Option String) : String :=
  target_ecosystem.getD (get_default_ecosystem target_lang)

/-- JSON string escaping as performed by `serde_json::to_string` on the
characters occurring in the built-in import lists. -/
def jsonEscapeChar (c : Char) : List Char :=
  if c = quoteChar then ['\\', quoteChar]
  else if c = '\\' then ['\\', '\\']
  else if c = Char.ofNat 10 then ['\\', 'n']
  else if c = Char.ofNat 9 then ['\\', 't']
  else if c = Char.ofNat 13 then ['\\', 'r']
  else [c]

/-- Model of `serde_json::to_string::<Vec<String>>` (always succeeds). -/
def encode_string_list (xs : List String) : String :=
  let enc := fun (s : String) =>
    String.mk (quoteChar :: (s.toList.flatMap jsonEscapeChar) ++ [quoteChar])
  "[" ++ String.intercalate "," (xs.map enc) ++ "]"

/-- Embeds `LibraryTransformer::apply_transform_rule` (always `Ok` in the
source; serializing `Vec<String>` cannot fail). -/
def apply_transform_rule (node : UIRNode) (pat : LibraryPattern)
    (rule : TransformRule) (usage : LibraryUsage) : UIRNode :=
  let transformed_code := usage.parameters.foldl
    (fun acc pv => acc.replace ("\x7b\x7b" ++ pv.1 ++ "\x7d\x7d") pv.2) rule.template
  let ann0 := node.metadata.annotations
  let ann1 := ainsert ann0 "transformed_from" (.str (pat.library ++ ":" ++ pat.name))
  let ann2 := ainsert ann1 "transformed_to"
    (.str (rule.target_library ++ ":" ++ rule.target_pattern))
  let ann3 := ainsert ann2 "generated_code" (.str transformed_code)
  let ann4 :=
    if rule.imports.isEmpty then ann3
    else ainsert ann3 "required_imports" (.str (encode_string_list rule.imports))
  let ann5 := match rule.setup_code with
    | some s => ainsert ann4 "setup_code" (.str s)
    | none => ann4
  let ann6 := match rule.cleanup_code with
    | some c => ainsert ann5 "cleanup_code" (.str c)
    | none => ann5
  node.setAnnotations ann6

/-- Embeds `LibraryTransformer::create_fallback_implementation` (always `Ok`). -/
def create_fallback_implementation (node : UIRNode) (pat : LibraryPattern)
    (_target_lang : Language) : UIRNode :=
  let fallback_comment :=
    "// TODO: Implement equivalent of " ++ pat.library ++ ":" ++ pat.name ++
    "\n// Original behavior: " ++ pat.semantics.behavior
  let ann1 := ainsert node.metadata.annotations "fallback_implementation" (.str fallback_comment)
  let ann2 := ainsert ann1 "requires_manual_implementation" (.str "true")
  node.setAnnotations ann2

/-- The body of the `for usage in …usage_patterns` loop of
`LibraryTransformer::transform_library_node`. -/
def transform_usage_step (reg : LibraryRegistry) (library : String)
    (target_eco : String) (target_lang : Language)
    (nd : UIRNode) (usage : LibraryUsage) : UIRNode :=
  match get_pattern reg library usage.pattern_name with
  | some pat =>
    match alookup pat.transformations target_eco with
    | some rule => apply_transform_rule nd pat rule usage
    | none => create_fallback_implementation nd pat target_lang
  | none => nd

/-- Embeds `LibraryTransformer::transform_library_node`: the usage loop,
expressed as a fold over the node. -/
def transform_library_node (reg : LibraryRegistry) (node : UIRNode)
    (library_dep : LibraryDependency) (target_lang : Language)
    (target_ecosystem : Option String) : UIRNode :=
  let target_eco := resolve_ecosystem target_lang target_ecosystem
  library_dep.usage_patterns.foldl
    (transform_usage_step reg library_dep.name target_eco target_lang) node

/-- The annotation-processing step of `LibraryTransformer::transform`:
decode the node's `library_dependency` annotation if it is a JSON string
(a decode failure becomes `CoalesceError::SerializationError` through `?`
and the `#[from]` conversion) and rewrite the node. -/
def transform_step (reg : LibraryRegistry) (node : UIRNode)
    (target_lang : Language) (target_ecosystem : Option String) :
    Except CoalesceError UIRNode :=
  match alookup node.metadata.annotations "library_dependency" with
  | some (Json.str s) =>
    match from_str_library_dependency s with
    | .error e => .error (.SerializationError e)
    | .ok dep => .ok (transform_library_node reg node dep target_lang target_ecosystem)
  | _ => .ok node

mutual

/-- Embeds `LibraryTransformer::transform`: process the node's annotation, then
recurse into the children, replacing each child by its transformed
version. -/
def transform (reg : LibraryRegistry) (node : UIRNode) (target_lang : Language)
    (target_ecosystem : Option String) : Except CoalesceError UIRNode :=
  match node with
  | .mk i nt nm cs md loc =>
    match transform_step reg (.mk i nt nm cs md loc) target_lang target_ecosystem with
    | .error e => .error e
    | .ok t =>
      match transform_children reg cs target_lang target_ecosystem with
      | .error e => .error e
      | .ok kids => .ok (t.setChildren kids)

/-- The `for child in &mut transformed_node.children` loop of `transform`. -/
def transform_children (reg : LibraryRegistry) (cs : List UIRNode)
    (target_lang : Language) (target_ecosystem : Option String) :
    Except CoalesceError (List UIRNode) :=
  match cs with
  | [] => .ok []
  | c :: rest =>
    match transform reg c target_lang target_ecosystem with
    | .error e => .error e
    | .ok u =>
      match transform_children reg rest target_lang target_ecosystem with
      | .error e => .error e
      | .ok us => .ok (u :: us)

end

/-- Does this metadata carry a `library_dependency` annotation that is a
JSON string which fails to deserialize into a `LibraryDependency`? -/
def metadata_has_undecodable_dep (md : Metadata) : Bool :=
  match alookup md.annotations "library_dependency" with
  | some (Json.str s) =>
    match from_str_library_dependency s with
    | .error _ => true
    | .ok _ => false
  | _ => false

mutual

/-- Some node of the tree carries an undecodable `library_dependency`
annotation. -/
def tree_has_bad_dep : UIRNode → Bool
  | .mk _ _ _ cs md _ => metadata_has_undecodable_dep md || tree_has_bad_dep_list cs

def tree_has_bad_dep_list : List UIRNode → Bool
  | [] => false
  | c :: rest => tree_has_bad_dep c || tree_has_bad_dep_list rest

end

/-! ## Concrete syntax trees (the tree-sitter grammar engine)

The grammar engine is external to the repository and treated as a black
box: it hands the front ends a tree of nodes with a kind string, a byte
range (here: the spanned text), positions, error/extra flags and
children.  The front ends are embedded as functions of such trees. -/

inductive TSNode where
  | mk (kind : String) (text : String)
       (startRow startCol endRow endCol : Nat)
       (isError isExtra : Bool) (children : List TSNode)

def TSNode.kind : TSNode → String
  | .mk k _ _ _ _ _ _ _ _ => k

def TSNode.text : TSNode → String
  | .mk _ t _ _ _ _ _ _ _ => t

def TSNode.startRow : TSNode → Nat
  | .mk _ _ r _ _ _ _ _ _ => r

def TSNode.startCol : TSNode → Nat
  | .mk _ _ _ c _ _ _ _ _ => c

def TSNode.endRow : TSNode → Nat
  | .mk _ _ _ _ r _ _ _ _ => r

def TSNode.endCol : TSNode → Nat
  | .mk _ _ _ _ _ c _ _ _ => c

def TSNode.isError : TSNode → Bool
  | .mk _ _ _ _ _ _ e _ _ => e

def TSNode.isExtra : TSNode → Bool
  | .mk _ _ _ _ _ _ _ x _ => x

def TSNode.children : TSNode → List TSNode
  | .mk _ _ _ _ _ _ _ _ cs => cs

mutual

/-- Embeds `Tree::root_node().has_error()`: some node of the tree is an error. -/
def ts_has_error : TSNode → Bool
  | .mk _ _ _ _ _ _ e _ cs => e || ts_has_error_list cs

def ts_has_error_list : List TSNode → Bool
  | [] => false
  | c :: rest => ts_has_error c || ts_has_error_list rest

end

mutual

def ts_size : TSNode → Nat
  | .mk _ _ _ _ _ _ _ _ cs => 1 + ts_size_list cs

def ts_size_list : List TSNode → Nat
  | [] => 0
  | c :: rest => ts_size c + ts_size_list rest

end

/-- Rust `str::contains` on character lists: the pattern occurs as a
prefix of some suffix of the haystack. -/
def listContainsSub : List Char → List Char → Bool
  | [], pat => pat.isEmpty
  | c :: t, pat => pat.isPrefixOf (c :: t) || listContainsSub t pat

/-- Rust `str::contains(&str)`. -/
def strContainsSub (s pat : String) : Bool :=
  listContainsSub s.toList pat.toList

/-! ## JavaScript front end (coalesce-parser/src/javascript.rs) -/

namespace JS

/-- The character replacement
`.replace(|c: char| !c.is_alphanumeric(), "_")` used by
`generate_node_id`. -/
def sanitize_char (c : Char) : Char :=
  if c.isAlphanum then c else '_'

/-- Embeds `JavaScriptParser::generate_node_id`: kind, start position and the
first 20 characters of the node's text with every non-alphanumeric
character replaced by an underscore. -/
def generate_node_id (kind : String) (row col : Nat) (text : String) : String :=
  kind ++ "_" ++ toString row ++ "_" ++ toString col ++ "_" ++
    String.mk ((text.toList.take 20).map sanitize_char)

def node_id (n : TSNode) : String :=
  generate_node_id n.kind n.startRow n.startCol n.text

/-- Embeds `JavaScriptParser::map_node_type`. -/
def map_node_type (kind : String) : NodeType :=
  match kind with
  | "program" | "source_file" => .Module
  | "function_declaration" | "function_definition" => .Function
  | "variable_declaration" | "variable_declarator" => .Variable
  | "if_statement" | "while_statement" | "for_statement" => .ControlFlow .Conditional
  | "return_statement" => .Statement .Return
  | "expression_statement" => .Statement .Expression
  | "assignment_expression" => .Expression .Assignment
  | "binary_expression" | "unary_expression" => .Expression .Arithmetic
  | "call_expression" => .Expression .FunctionCall
  | "identifier" => .Expression .Variable
  | "number" | "string" | "boolean" => .Expression .Literal
  | "class_declaration" => .Class
  | _ => .Expression .Literal

/-- Embeds `JavaScriptParser::create_metadata`: JavaScript source language, the
raw kind as a semantic tag, and the node text as a debug annotation when
shorter than 100 bytes. -/
def create_metadata (n : TSNode) : Metadata :=
  let base : Metadata := { Metadata.default with
    source_language := .JavaScript
    semantic_tags := [n.kind] }
  if n.text.utf8ByteSize < 100 then
    { base with annotations := ainsert base.annotations "original_text" (.str n.text) }
  else base

/-- Embeds `JavaScriptParser::create_source_location` (always called with
`file = ""`). -/
def create_source_location (n : TSNode) : Option SourceLocation :=
  some ⟨"", n.startRow + 1, n.endRow + 1, n.startCol, n.endCol⟩

/-- Embeds `JavaScriptParser::find_child_by_kind`. -/
def find_child_by_kind (n : TSNode) (kind : String) : Option TSNode :=
  n.children.find? (fun c => c.kind = kind)

/-- Embeds `JavaScriptParser::children_by_kind`. -/
def children_by_kind (n : TSNode) (kind : String) : List TSNode :=
  n.children.filter (fun c => c.kind = kind)

/-- Embeds `JavaScriptParser::extract_parameters` (never fails). -/
def extract_parameters (params_node : TSNode) : List UIRNode :=
  (children_by_kind params_node "identifier").map (fun c =>
    .mk (node_id c) .Variable (some c.text) [] (create_metadata c)
      (create_source_location c))

abbrev Conv := TSNode → Except CoalesceError UIRNode

/-- Embeds `JavaScriptParser::extract_function_body`: every non-extra child of
the block except the braces, dropping children whose conversion fails. -/
def extract_function_body (go : Conv) (body_node : TSNode) : List UIRNode :=
  (body_node.children.filter (fun c =>
      !c.isExtra && c.kind ≠ "\x7b" && c.kind ≠ "\x7d")).filterMap
    (fun c => (go c).toOption)

def convert_program (go : Conv) (n : TSNode) : Except CoalesceError UIRNode :=
  let children := (n.children.filter (fun c => !c.isExtra)).filterMap
    (fun c => (go c).toOption)
  .ok (.mk (node_id n) .Module (some "javascript_program") children
        (create_metadata n) (create_source_location n))

def convert_function_declaration (go : Conv) (n : TSNode) :
    Except CoalesceError UIRNode :=
  match find_child_by_kind n "identifier" with
  | none => .error (.ParseError "Function missing name" (n.startRow + 1) n.startCol)
  | some name_node =>
    let parameters := match find_child_by_kind n "formal_parameters" with
      | some pn => extract_parameters pn
      | none => []
    let body := match find_child_by_kind n "statement_block" with
      | some bn => extract_function_body go bn
      | none => []
    .ok (.mk (node_id n) .Function (some name_node.text) (parameters ++ body)
          (create_metadata n) (create_source_location n))

def convert_arrow_function (go : Conv) (n : TSNode) : Except CoalesceError UIRNode :=
  let parameters := match find_child_by_kind n "formal_parameters" with
    | some pn => extract_parameters pn
    | none =>
      match find_child_by_kind n "identifier" with
      | some pn =>
        [.mk (node_id pn) .Variable (some pn.text) [] (create_metadata pn)
           (create_source_location pn)]
      | none => []
  let body := match find_child_by_kind n "statement_block" with
    | some bn => extract_function_body go bn
    | none =>
      match (n.children.drop 1).find? (fun c =>
          c.kind ≠ "=>" && c.kind ≠ "formal_parameters" && c.kind ≠ "identifier") with
      | some c => ((go c).toOption.map (fun u => [u])).getD []
      | none => []
  .ok (.mk (node_id n) .Function (some "arrow_function") (parameters ++ body)
        (create_metadata n) (create_source_location n))

def convert_class_declaration (go : Conv) (n : TSNode) :
    Except CoalesceError UIRNode :=
  match find_child_by_kind n "identifier" with
  | none => .error (.ParseError "Class missing name" (n.startRow + 1) n.startCol)
  | some name_node =>
    let children := match find_child_by_kind n "class_body" with
      | some bn => (bn.children.filter (fun c => !c.isExtra)).filterMap
          (fun c => (go c).toOption)
      | none => []
    .ok (.mk (node_id n) .Class (some name_node.text) children
          (create_metadata n) (create_source_location n))

def convert_method (go : Conv) (n : TSNode) : Except CoalesceError UIRNode :=
  match (find_child_by_kind n "property_identifier").orElse
      (fun _ => find_child_by_kind n "identifier") with
  | none => .error (.ParseError "Method missing name" (n.startRow + 1) n.startCol)
  | some name_node =>
    let parameters := match find_child_by_kind n "formal_parameters" with
      | some pn => extract_parameters pn
      | none => []
    let body := match find_child_by_kind n "statement_block" with
      | some bn => extract_function_body go bn
      | none => []
    .ok (.mk (node_id n) .Function (some name_node.text) (parameters ++ body)
          (create_metadata n) (create_source_location n))

def convert_variable_declaration (go : Conv) (n : TSNode) :
    Except CoalesceError UIRNode :=
  let children := (children_by_kind n "variable_declarator").filterMap
    (fun d =>
      match find_child_by_kind d "identifier" with
      | none => none
      | some name_node =>
        let value_child := match (d.children.drop 1).find? (fun c =>
            c.kind ≠ "identifier" && c.kind ≠ "=") with
          | some c => ((go c).toOption.map (fun u => [u])).getD []
          | none => []
        some (UIRNode.mk (node_id d) .Variable (some name_node.text) value_child
          (create_metadata d) (create_source_location d)))
  .ok (.mk (node_id n) (.Statement .Expression) (some "variable_declaration") children
        (create_metadata n) (create_source_location n))

def convert_return_statement (go : Conv) (n : TSNode) :
    Except CoalesceError UIRNode :=
  let children := ((n.children.drop 1).filter (fun c => c.kind ≠ ";")).filterMap
    (fun c => (go c).toOption)
  .ok (.mk (node_id n) (.Statement .Return) none children
        (create_metadata n) (create_source_location n))

def convert_if_statement (go : Conv) (n : TSNode) : Except CoalesceError UIRNode :=
  let children := n.children.flatMap (fun c =>
    if c.kind = "parenthesized_expression" then
      match ((find_child_by_kind c "binary_expression").orElse
          (fun _ => find_child_by_kind c "identifier")).orElse
          (fun _ => find_child_by_kind c "call_expression") with
      | some cond => ((go cond).toOption.map (fun u => [u])).getD []
      | none => []
    else if c.kind = "statement_block" || c.kind = "expression_statement" then
      ((go c).toOption.map (fun u => [u])).getD []
    else [])
  .ok (.mk (node_id n) (.ControlFlow .Conditional) (some "if_statement") children
        (create_metadata n) (create_source_location n))

def convert_call_expression (go : Conv) (n : TSNode) : Except CoalesceError UIRNode :=
  let func := match (find_child_by_kind n "identifier").orElse
      (fun _ => find_child_by_kind n "member_expression") with
    | some fn => ((go fn).toOption.map (fun u => [u])).getD []
    | none => []
  let args := match find_child_by_kind n "arguments" with
    | some an => (an.children.filter (fun c =>
        c.kind ≠ "(" && c.kind ≠ ")" && c.kind ≠ ",")).filterMap
        (fun c => (go c).toOption)
    | none => []
  .ok (.mk (node_id n) (.Expression .FunctionCall) none (func ++ args)
        (create_metadata n) (create_source_location n))

/-- The operator kinds skipped by `convert_binary_expression`. -/
def binary_operator_kinds : List String :=
  ["+", "-", "*", "/", "%", "==", "!=", "<", ">", "<=", ">=", "&&", "||"]

def convert_binary_expression (go : Conv) (n : TSNode) :
    Except CoalesceError UIRNode :=
  let children := (n.children.filter (fun c =>
      !(binary_operator_kinds.contains c.kind))).filterMap (fun c => (go c).toOption)
  .ok (.mk (node_id n) (.Expression .Arithmetic) none children
        (create_metadata n) (create_source_location n))

def convert_identifier (n : TSNode) : Except CoalesceError UIRNode :=
  .ok (.mk (node_id n) (.Expression .Variable) (some n.text) []
        (create_metadata n) (create_source_location n))

def convert_literal (n : TSNode) : Except CoalesceError UIRNode :=
  .ok (.mk (node_id n) (.Expression .Literal) none []
        (create_metadata n) (create_source_location n))

def convert_generic (go : Conv) (n : TSNode) : Except CoalesceError UIRNode :=
  let children := (n.children.filter (fun c => !c.isExtra)).filterMap
    (fun c => (go c).toOption)
  .ok (.mk (node_id n) (map_node_type n.kind) (some n.kind) children
        (create_metadata n) (create_source_location n))

/-- Embeds `JavaScriptParser::ast_to_uir`.  The recursion is structural on the
tree; the fuel parameter only discharges termination and is chosen larger
than the tree size at every call site. -/
def ast_to_uir : Nat → TSNode → Except CoalesceError UIRNode
  | 0, _ => .error (.ParseError "recursion fuel exhausted" 0 0)
  | f + 1, n =>
    let go := ast_to_uir f
    match n.kind with
    | "program" => convert_program go n
    | "function_declaration" => convert_function_declaration go n
    | "arrow_function" => convert_arrow_function go n
    | "class_declaration" => convert_class_declaration go n
    | "method_definition" => convert_method go n
    | "variable_declaration" => convert_variable_declaration go n
    | "return_statement" => convert_return_statement go n
    | "if_statement" => convert_if_statement go n
    | "call_expression" => convert_call_expression go n
    | "binary_expression" => convert_binary_expression go n
    | "identifier" => convert_identifier n
    | "number" | "string" | "true" | "false" => convert_literal n
    | _ => convert_generic go n

mutual

/-- Embeds `JavaScriptParser::collect_error_nodes` (preorder). -/
def collect_error_nodes : TSNode → List TSNode
  | .mk k t sr sc er ec e x cs =>
    (if e then [TSNode.mk k t sr sc er ec e x cs] else []) ++ collect_error_nodes_list cs

def collect_error_nodes_list : List TSNode → List TSNode
  | [] => []
  | c :: rest => collect_error_nodes c ++ collect_error_nodes_list rest

end

/-- Embeds `JavaScriptParser::handle_parse_error`: a stub `Module` named
"partial_parse" with no children and a `parse_error` annotation. -/
def handle_parse_error (root : TSNode) : Except CoalesceError UIRNode :=
  let errors := collect_error_nodes root
  let msg := "Parse errors found: " ++ toString errors.length ++
    " error nodes. First error at line " ++
    toString (((errors.head?).map (fun n => n.startRow + 1)).getD 0)
  .ok (.mk "error_recovery" .Module (some "partial_parse") []
        { Metadata.default with annotations := ainsert [] "parse_error" (.str msg) }
        none)

/-- Embeds `JavaScriptParser::parse_source`, taking the grammar engine's
concrete syntax tree as input (tree-sitter itself is outside the
repository; the `None` return of `parser.parse` is not modelled). -/
def parse_source (tree : TSNode) : Except CoalesceError UIRNode :=
  if ts_has_error tree then handle_parse_error tree
  else ast_to_uir (ts_size tree + 1) tree

end JS

/-! ## Rust front end (coalesce-parser/src/rust_parser.rs) -/

namespace RustFE

/-- The `format!("{}_{}_{}_{}", …)` unique id in `convert_to_uir`: kind
with spaces replaced, start position, first 15 characters of the node's
text with spaces replaced. -/
def rust_node_id (kind : String) (row col : Nat) (text : String) : String :=
  kind.replace " " "_" ++ "_" ++ toString row ++ "_" ++ toString col ++ "_" ++
    (String.mk (text.toList.take 15)).replace " " "_"

def extract_function_name (cs : List TSNode) : Option String :=
  (cs.find? (fun c => c.kind = "identifier")).map TSNode.text

def extract_parameter_name (cs : List TSNode) : Option String :=
  (cs.find? (fun c => c.kind = "identifier")).map TSNode.text

def extract_struct_name (cs : List TSNode) : Option String :=
  (cs.find? (fun c => c.kind = "type_identifier")).map TSNode.text

def extract_enum_name (cs : List TSNode) : Option String :=
  (cs.find? (fun c => c.kind = "type_identifier")).map TSNode.text

def extract_trait_name (cs : List TSNode) : Option String :=
  (cs.find? (fun c => c.kind = "type_identifier")).map TSNode.text

def extract_impl_name (cs : List TSNode) : Option String :=
  match cs.find? (fun c => c.kind = "type_identifier") with
  | some c => some ("impl_" ++ c.text)
  | none => some "anonymous_impl"

def extract_mod_name (cs : List TSNode) : Option String :=
  match cs.find? (fun c => c.kind = "identifier") with
  | some c => some ("mod_" ++ c.text)
  | none => some "anonymous_mod"

/-- The kind dispatch of `RustParser::convert_to_uir` (the `match
node_type` computing `(uir_node_type, name)`). -/
def classify_node (kind : String) (original_text : String) (cs : List TSNode) :
    NodeType × Option String :=
  match kind with
  | "source_file" => (.Module, some "rust_program")
  | "function_item" => (.Function, extract_function_name cs)
  | "impl_item" => (.Class, extract_impl_name cs)
  | "struct_item" => (.Class, extract_struct_name cs)
  | "enum_item" => (.Class, extract_enum_name cs)
  | "trait_item" => (.Interface, extract_trait_name cs)
  | "parameter" => (.Variable, extract_parameter_name cs)
  | "identifier" => (.Expression .Variable, some original_text)
  | "integer_literal" | "float_literal" => (.Expression .Literal, none)
  | "string_literal" | "raw_string_literal" | "char_literal" => (.Expression .Literal, none)
  | "boolean_literal" => (.Expression .Literal, none)
  | "return_expression" => (.Statement .Return, none)
  | "binary_expression" => (.Expression .Arithmetic, none)
  | "call_expression" => (.Expression .FunctionCall, none)
  | "assignment_expression" => (.Expression .Assignment, none)
  | "if_expression" => (.ControlFlow .Conditional, none)
  | "for_expression" => (.ControlFlow (.Loop .For), none)
  | "while_expression" => (.ControlFlow (.Loop .While), none)
  | "loop_expression" => (.ControlFlow (.Loop .While), none)
  | "match_expression" => (.ControlFlow .Switch, none)
  | "mod_item" => (.Module, extract_mod_name cs)
  | _ =>
    if strContainsSub kind "statement" || strContainsSub kind "expression_statement" then
      (.Statement .Expression, none)
    else if strContainsSub kind "expression" then
      (.Expression .Variable, none)
    else
      (.Expression .Literal, none)

mutual

/-- Embeds `RustParser::convert_to_uir` (the `depth` argument of the source is
unused and dropped). -/
def convert_to_uir : TSNode → Except CoalesceError UIRNode
  | .mk kind text sr sc erow ecol _ _ cs =>
    let loc : SourceLocation := ⟨"", sr + 1, erow + 1, sc, ecol⟩
    let annotations := ainsert ([] : List (String × Json)) "original_text" (.str text)
    let md : Metadata := ⟨.Rust, [kind], none, [], annotations, []⟩
    let id := rust_node_id kind sr sc text
    let (nt, nm) := classify_node kind text cs
    match convert_children cs with
    | .error e => .error e
    | .ok kids => .ok (.mk id nt nm kids md (some loc))

/-- The `for child in node.children` loop of `convert_to_uir`: children
flagged as errors are skipped, the rest converted in order. -/
def convert_children : List TSNode → Except CoalesceError (List UIRNode)
  | [] => .ok []
  | c :: rest =>
    if c.isError then convert_children rest
    else
      match convert_to_uir c with
      | .error e => .error e
      | .ok u =>
        match convert_children rest with
        | .error e => .error e
        | .ok us => .ok (u :: us)

end

end RustFE

/-! ## Derived notions and concrete fixtures used by the theorems -/

/-- The substring-based fallback classification described by the
specification: kinds containing "statement" are statements, kinds
containing "expression" are variable expressions, everything else is a
literal expression. -/
def substring_fallback (kind : String) : NodeType :=
  if strContainsSub kind "statement" then .Statement .Expression
  else if strContainsSub kind "expression" then .Expression .Variable
  else .Expression .Literal

/-- The kinds explicitly listed by the Rust front end's dispatch
(`RustFE.classify_node`); everything else hits its fallback arm. -/
def rust_explicit_kinds : List String :=
  ["source_file", "function_item", "impl_item", "struct_item", "enum_item",
   "trait_item", "parameter", "identifier", "integer_literal", "float_literal",
   "string_literal", "raw_string_literal", "char_literal", "boolean_literal",
   "return_expression", "binary_expression", "call_expression",
   "assignment_expression", "if_expression", "for_expression",
   "while_expression", "loop_expression", "match_expression", "mod_item"]

/-- The kinds explicitly listed by `JS.map_node_type`; everything else
hits its fallback arm. -/
def js_explicit_kinds : List String :=
  ["program", "source_file", "function_declaration", "function_definition",
   "variable_declaration", "variable_declarator", "if_statement",
   "while_statement", "for_statement", "return_statement",
   "expression_statement", "assignment_expression", "binary_expression",
   "unary_expression", "call_expression", "identifier", "number", "string",
   "boolean", "class_declaration"]

/-- The direct-transformation suggestion built by
`get_transformation_suggestions` when a rule for the target ecosystem
exists. -/
def direct_suggestion (rule : TransformRule) (target_ecosystem : String) :
    TransformationSuggestion :=
  { confidence := 1
    suggestion_type := .DirectTransform
    target_library := rule.target_library
    target_pattern := rule.target_pattern
    description := "Direct transformation to " ++ target_ecosystem }

/-- The semantic-equivalent suggestions built by
`get_transformation_suggestions`, in registry (registration) order. -/
def equivalent_suggestions (reg : LibraryRegistry) (pat : LibraryPattern)
    (source_library target_ecosystem : String) : List TransformationSuggestion :=
  (find_equivalent_patterns reg pat.semantics.intent).filterMap (fun q =>
    if q.ecosystem = target_ecosystem ∧ q.library ≠ source_library then
      some { confidence := (4 : Rat) / 5
             suggestion_type := .SemanticEquivalent
             target_library := q.library
             target_pattern := q.name
             description := "Semantic equivalent: " ++ q.name }
    else none)

/-- JavaScript source with a React `useState` import and one hook call. -/
def c8code : String :=
  "import \x7b useState \x7d from \"react\";\nconst [count, setCount] = useState(0);"

/-- JavaScript source where two import variants of the react library fire
(both detector patterns for library "react" match). -/
def c5code : String :=
  "import \x7b useState, useEffect \x7d from \"react\";\nconst [count, setCount] = useState(0);\nuseEffect(f, []);"

/-- The dependency record the detector produces for `c8code`. -/
def react_useState_dep : LibraryDependency :=
  { name := "react"
    version := none
    ecosystem := "javascript"
    import_path := none
    usage_patterns := [
      { pattern_name := "useState"
        method_name := "const [count, setCount] = useState(0)"
        parameters := [("state", "count"), ("setter", "setCount"), ("initial", "0")]
        semantic_intent := "reactive_state_management"
        source_location := (34, 71) } ] }

def dummy_uir : UIRNode := .mk "" .Module none [] Metadata.default none

def uir_child (n : UIRNode) (i : Nat) : UIRNode := n.children.getD i dummy_uir

/-- The tree-sitter CST for `function add(a, b) { return a + b; }`
as produced by the JavaScript grammar. -/
def add_cst : TSNode :=
  .mk "program" "function add(a, b) \x7b return a + b; \x7d" 0 0 0 36 false false
    [.mk "function_declaration" "function add(a, b) \x7b return a + b; \x7d" 0 0 0 36 false false
      [.mk "function" "function" 0 0 0 8 false false [],
       .mk "identifier" "add" 0 9 0 12 false false [],
       .mk "formal_parameters" "(a, b)" 0 12 0 18 false false
         [.mk "(" "(" 0 12 0 13 false false [],
          .mk "identifier" "a" 0 13 0 14 false false [],
          .mk "," "," 0 14 0 15 false false [],
          .mk "identifier" "b" 0 16 0 17 false false [],
          .mk ")" ")" 0 17 0 18 false false []],
       .mk "statement_block" "\x7b return a + b; \x7d" 0 19 0 36 false false
         [.mk "\x7b" "\x7b" 0 19 0 20 false false [],
          .mk "return_statement" "return a + b;" 0 21 0 34 false false
            [.mk "return" "return" 0 21 0 27 false false [],
             .mk "binary_expression" "a + b" 0 28 0 33 false false
               [.mk "identifier" "a" 0 28 0 29 false false [],
                .mk "+" "+" 0 30 0 31 false false [],
                .mk "identifier" "b" 0 32 0 33 false false []],
             .mk ";" ";" 0 33 0 34 false false []],
          .mk "\x7d" "\x7d" 0 35 0 36 false false []]]]

/-- The UIR tree the JavaScript front end produces for `add_cst`. -/
def add_uir : UIRNode := (JS.parse_source add_cst).toOption.getD dummy_uir

/-- A healthy subtree: `function f() {}`. -/
def c4_good_fn : TSNode :=
  .mk "function_declaration" "function f() \x7b \x7d" 0 0 0 16 false false
    [.mk "function" "function" 0 0 0 8 false false [],
     .mk "identifier" "f" 0 9 0 10 false false [],
     .mk "formal_parameters" "()" 0 10 0 12 false false
       [.mk "(" "(" 0 10 0 11 false false [],
        .mk ")" ")" 0 11 0 12 false false []],
     .mk "statement_block" "\x7b \x7d" 0 13 0 16 false false
       [.mk "\x7b" "\x7b" 0 13 0 14 false false [],
        .mk "\x7d" "\x7d" 0 15 0 16 false false []]]

/-- A node the grammar engine flags as a syntax error. -/
def c4_err_node : TSNode := .mk "ERROR" "@@@" 0 17 0 20 true false []

/-- A CST with a healthy function next to a localized syntax error. -/
def c4_cst : TSNode :=
  .mk "program" "function f() \x7b \x7d @@@" 0 0 0 20 false false
    [c4_good_fn, c4_err_node]

/-- A UIR node whose `library_dependency` annotation does not
deserialize. -/
def c6_bad_node : UIRNode :=
  .mk "n1" .Module none []
    { Metadata.default with annotations := [("library_dependency", .str "not json")] }
    none

/-- The serialized form of `react_useState_dep` as stored in UIR
annotations. -/
def react_dep_json : String :=
  "\x7b\"name\":\"react\",\"version\":null,\"ecosystem\":\"javascript\",\"import_path\":null,\"usage_patterns\":[\x7b\"pattern_name\":\"useState\",\"method_name\":\"const [count, setCount] = useState(0)\",\"parameters\":\x7b\"state\":\"count\",\"setter\":\"setCount\",\"initial\":\"0\"\x7d,\"semantic_intent\":\"reactive_state_management\",\"source_location\":[34,71]\x7d]\x7d"

/-- A leaf UIR node annotated with the react `useState` dependency. -/
def c1_node : UIRNode :=
  .mk "n_useState" (.Statement .Expression) none []
    { Metadata.default with annotations := [("library_dependency", .str react_dep_json)] }
    none

def dummy_pattern : LibraryPattern :=
  ⟨"", "", "", "", ⟨"", "", "", [], [], false, false⟩, [], []⟩

/-- The registered react `useState` pattern. -/
def react_useState_pattern : LibraryPattern :=
  (get_pattern default_registry "react" "useState").getD dummy_pattern

/-- The usage record inside `react_useState_dep`. -/
def react_useState_usage : LibraryUsage :=
  react_useState_dep.usage_patterns.headD ⟨"", "", [], "", (0, 0)⟩

/-- The C socket dependency as detected by the built-in detector: its
usage carries `pattern_name = "socket"`. -/
def c_socket_dep : LibraryDependency :=
  { name := "socket"
    version := none
    ecosystem := "c"
    import_path := none
    usage_patterns := [
      { pattern_name := "socket"
        method_name := "sock = socket(AF_INET, SOCK_STREAM, 0)"
        parameters := [("var", "sock"), ("family", "AF_INET"), ("type", "SOCK_STREAM")]
        semantic_intent := "tcp_socket_creation"
        source_location := (10, 48) } ] }

def c_socket_dep_json : String :=
  "\x7b\"name\":\"socket\",\"version\":null,\"ecosystem\":\"c\",\"import_path\":null,\"usage_patterns\":[\x7b\"pattern_name\":\"socket\",\"method_name\":\"sock = socket(AF_INET, SOCK_STREAM, 0)\",\"parameters\":\x7b\"var\":\"sock\",\"family\":\"AF_INET\",\"type\":\"SOCK_STREAM\"\x7d,\"semantic_intent\":\"tcp_socket_creation\",\"source_location\":[10,48]\x7d]\x7d"

/-- A leaf UIR node annotated with the detected C socket dependency. -/
def c10_node : UIRNode :=
  .mk "n_socket" (.Statement .Expression) none []
    { Metadata.default with annotations := [("library_dependency", .str c_socket_dep_json)] }
    none

/-- An extra registered pattern sharing the `useState` intent in the
"vue" ecosystem, to exhibit a semantic-equivalent suggestion. -/
def c7_extra_pattern : LibraryPattern :=
  { name := "reactiveState"
    library := "vuex"
    ecosystem := "vue"
    signature := "state: () => (\x7b … \x7d)"
    semantics :=
      { intent := "reactive_state_management"
        category := "state"
        behavior := "Reactive store state"
        side_effects := []
        requirements := []
        mutability := true
        reactivity := true }
    parameters := []
    transformations := [] }

def c7_registry : LibraryRegistry := register_pattern default_registry c7_extra_pattern

def c7_direct_rule : TransformRule :=
  (alookup react_useState_pattern.transformations "vue").getD
    ⟨"", "", "", [], none, none, []⟩

def c2_node : TSNode := .mk "weird_statement" "" 0 0 0 0 false false []

/-! # Theorems -/

/-! ## Association-list lemmas -/

theorem alookup_ainsert {κ α : Type} [DecidableEq κ]
    (m : List (κ × α)) (k k2 : κ) (v : α) :
    alookup (ainsert m k v) k2 = if k = k2 then some v else alookup m k2 := by
  induction m with
  | nil => by_cases h : k = k2 <;> simp [ainsert, alookup, h]
  | cons hd tl ih =>
    obtain ⟨k3, v3⟩ := hd
    by_cases h3 : k3 = k
    · subst h3
      by_cases h4 : k3 = k2 <;> simp [ainsert, alookup, h4]
    · by_cases h4 : k3 = k2
      · have h5 : k ≠ k2 := fun he => h3 (h4.trans he.symm)
        have h6 : ¬(k2 = k) := fun he => h5 he.symm
        subst h4
        simp [ainsert, alookup, h5, h6]
      · simp [ainsert, alookup, h3, h4, ih]

/-! ## Node-update projection lemmas -/

theorem setAnnotations_annotations (n : UIRNode) (a : List (String × Json)) :
    (n.setAnnotations a).metadata.annotations = a := by
  cases n
  rfl

theorem setChildren_metadata (n : UIRNode) (cs : List UIRNode) :
    (n.setChildren cs).metadata = n.metadata := by
  cases n
  rfl

theorem setChildren_self (n : UIRNode) : n.setChildren n.children = n := by
  cases n
  rfl

/-! ## Substring lemmas (for the fallback classification) -/

theorem listContainsSub_of_isPrefixOf_append (pre pat : List Char) :
    ∀ hay : List Char, (pre ++ pat).isPrefixOf hay = true →
      listContainsSub hay pat = true := by
  induction pre with
  | nil =>
    intro hay h
    simp only [List.nil_append] at h
    cases hay with
    | nil =>
      cases pat with
      | nil => rfl
      | cons p ps => simp [List.isPrefixOf] at h
    | cons c t => simp [listContainsSub, h]
  | cons c pre2 ih =>
    intro hay h
    cases hay with
    | nil => simp [List.isPrefixOf] at h
    | cons c2 t =>
      simp only [List.cons_append, List.isPrefixOf, Bool.and_eq_true, beq_iff_eq] at h
      simp [listContainsSub, ih t h.2]

theorem listContainsSub_mono (pre pat : List Char) :
    ∀ hay : List Char, listContainsSub hay (pre ++ pat) = true →
      listContainsSub hay pat = true := by
  intro hay
  induction hay with
  | nil =>
    intro h
    cases pre with
    | nil => simpa using h
    | cons c pre2 => simp [listContainsSub] at h
  | cons c t ih =>
    intro h
    simp only [listContainsSub, Bool.or_eq_true] at h ⊢
    rcases h with h | h
    · have := listContainsSub_of_isPrefixOf_append pre pat (c :: t) h
      simpa [listContainsSub] using this
    · exact Or.inr (ih h)

theorem strContainsSub_statement_of_expr_stmt (k : String) :
    strContainsSub k "expression_statement" = true →
    strContainsSub k "statement" = true := by
  intro h
  unfold strContainsSub at h ⊢
  have heq : ("expression_statement").toList = ("expression_").toList ++ ("statement").toList := by
    decide
  rw [heq] at h
  exact listContainsSub_mono _ _ _ h

/-- The Rust front end's fallback condition collapses to a plain
substring test on "statement". -/
theorem rust_fallback_condition (k : String) :
    (strContainsSub k "statement" || strContainsSub k "expression_statement") =
      strContainsSub k "statement" := by
  cases h1 : strContainsSub k "statement"
  · cases h2 : strContainsSub k "expression_statement"
    · rfl
    · exact absurd (strContainsSub_statement_of_expr_stmt k h2) (by simp [h1])
  · rfl

/-! ## Rust front end: totality and fallback classification -/

theorem rustfe_total_aux :
    ∀ k : Nat,
      (∀ n : TSNode, sizeOf n ≤ k → ∃ u, RustFE.convert_to_uir n = .ok u) ∧
      (∀ cs : List TSNode, sizeOf cs ≤ k →
        ∃ us, RustFE.convert_children cs = .ok us) := by
  intro k
  induction k with
  | zero =>
    constructor
    · intro n hn
      cases n
      simp at hn
    · intro cs hcs
      cases cs <;> simp at hcs
  | succ k ih =>
    constructor
    · intro n hn
      cases n with
      | mk kind text sr sc erow ecol ie ix cs =>
        have hcs : sizeOf cs ≤ k := by
          simp at hn
          omega
        obtain ⟨us, hus⟩ := ih.2 cs hcs
        rcases hcl : RustFE.classify_node kind text cs with ⟨nt, nm⟩
        simp only [RustFE.convert_to_uir, hus, hcl]
        exact ⟨_, rfl⟩
    · intro cs hcs
      cases cs with
      | nil => exact ⟨[], rfl⟩
      | cons c rest =>
        have h1 : sizeOf c ≤ k := by
          simp at hcs
          omega
        have h2 : sizeOf rest ≤ k := by
          simp at hcs
          omega
        obtain ⟨u, hu⟩ := ih.1 c h1
        obtain ⟨us, hus⟩ := ih.2 rest h2
        by_cases he : c.isError
        · exact ⟨us, by simp [RustFE.convert_children, he, hus]⟩
        · exact ⟨u :: us, by simp [RustFE.convert_children, he, hu, hus]⟩

theorem rustfe_convert_children_ok (cs : List TSNode) :
    ∃ us, RustFE.convert_children cs = .ok us :=
  (rustfe_total_aux (sizeOf cs)).2 cs le_rfl

/-- An unlisted kind is classified by the substring fallback. -/
theorem rust_classify_default (k t : String) (cs : List TSNode)
    (h : k ∉ rust_explicit_kinds) :
    RustFE.classify_node k t cs = (substring_fallback k, none) := by
  simp only [rust_explicit_kinds, List.mem_cons, List.mem_singleton, not_or] at h
  obtain ⟨h1, h2, h3, h4, h5, h6, h7, h8, h9, h10, h11, h12, h13, h14, h15,
    h16, h17, h18, h19, h20, h21, h22, h23, h24⟩ := h
  unfold RustFE.classify_node
  split
  all_goals try simp_all
  by_cases hs : strContainsSub k "statement" = true
  · simp [hs, substring_fallback]
  · simp only [Bool.not_eq_true] at hs
    have hexps : strContainsSub k "expression_statement" = false := by
      cases hx : strContainsSub k "expression_statement"
      · rfl
      · exact absurd (strContainsSub_statement_of_expr_stmt k hx) (by simp [hs])
    by_cases he : strContainsSub k "expression" = true
    · simp [hs, hexps, he, substring_fallback]
    · simp only [Bool.not_eq_true] at he
      simp [hs, hexps, he, substring_fallback]

/-- Claim C2, counterexample: "break_statement" is not in the JavaScript
front end's mapping table and contains "statement", yet `map_node_type`
classifies it as `Expression(Literal)`, not `Statement(Expression)` —
the JavaScript fallback is not by substring. -/
theorem C2_counterexample :
    JS.map_node_type "break_statement" = .Expression .Literal ∧
    NodeType.Expression .Literal ≠ NodeType.Statement .Expression ∧
    "break_statement" ∉ js_explicit_kinds ∧
    strContainsSub "break_statement" "statement" = true :=
  ⟨rfl, by decide, by decide, by decide⟩

/-- Claim C2, amended: the Rust front end classifies every unlisted kind
by the substring rule (statement → `Statement(Expression)`, expression →
`Expression(Variable)`, else `Expression(Literal)`) and never fails; the
JavaScript front end's mapping is total but sends every unlisted kind to
`Expression(Literal)` regardless of substrings. -/
theorem C2_amended :
    (∀ n : TSNode, n.kind ∉ rust_explicit_kinds →
      ∃ u, RustFE.convert_to_uir n = .ok u ∧ u.node_type = substring_fallback n.kind) ∧
    (∀ kind : String, kind ∉ js_explicit_kinds →
      JS.map_node_type kind = .Expression .Literal) := by
  constructor
  · intro n hk
    cases n with
    | mk kind text sr sc erow ecol ie ix cs =>
      obtain ⟨us, hus⟩ := rustfe_convert_children_ok cs
      have hcl := rust_classify_default kind text cs hk
      have hconv : RustFE.convert_to_uir (.mk kind text sr sc erow ecol ie ix cs) =
          .ok (.mk (RustFE.rust_node_id kind sr sc text) (substring_fallback kind) none us
            ⟨.Rust, [kind], none, [], ainsert [] "original_text" (.str text), []⟩
            (some ⟨"", sr + 1, erow + 1, sc, ecol⟩)) := by
        simp only [RustFE.convert_to_uir, hus, hcl]
      exact ⟨_, hconv, rfl⟩
  · intro kind hk
    simp only [js_explicit_kinds, List.mem_cons, List.mem_singleton, not_or] at hk
    obtain ⟨g1, g2, g3, g4, g5, g6, g7, g8, g9, g10, g11, g12, g13, g14, g15,
      g16, g17, g18, g19, g20⟩ := hk
    unfold JS.map_node_type
    split
    all_goals simp_all

/-- Witness for `C2_amended` at concrete unlisted kinds. -/
theorem C2_amended_witness :
    (∃ u, RustFE.convert_to_uir c2_node = .ok u ∧
      u.node_type = substring_fallback "weird_statement") ∧
    JS.map_node_type "weird_kind" = .Expression .Literal :=
  ⟨C2_amended.1 c2_node (by decide), C2_amended.2 "weird_kind" (by decide)⟩

/-- Claim C3, counterexample: two node texts agreeing on their first 15
characters (no spaces involved) produce different JavaScript node ids —
the id is not a function of the first 15 characters — and a
non-space character is also replaced by an underscore. -/
theorem C3_counterexample :
    (List.take 15 (String.toList "aaaaaaaaaaaaaaabbbbb") =
      List.take 15 (String.toList "aaaaaaaaaaaaaaaccccc")) ∧
    JS.generate_node_id "identifier" 0 0 "aaaaaaaaaaaaaaabbbbb" ≠
      JS.generate_node_id "identifier" 0 0 "aaaaaaaaaaaaaaaccccc" ∧
    JS.generate_node_id "binary_expression" 0 0 "a+b" =
      "binary_expression_0_0_a_b" :=
  ⟨by decide, by decide, by decide⟩

/-- Claim C3, amended: the JavaScript node id is a deterministic function
of kind, start row, start column and the first 20 characters of the
node's text with every non-alphanumeric character replaced by an
underscore, so repeated parses of identical source yield identical ids. -/
theorem C3_amended (kind : String) (row col : Nat) (t1 t2 : String)
    (h : (t1.toList.take 20).map JS.sanitize_char =
         (t2.toList.take 20).map JS.sanitize_char) :
    JS.generate_node_id kind row col t1 = JS.generate_node_id kind row col t2 := by
  unfold JS.generate_node_id
  rw [h]

/-- Witness for `C3_amended`: "a+b" and "a b" sanitize identically. -/
theorem C3_amended_witness :
    JS.generate_node_id "identifier" 1 2 "a+b" =
      JS.generate_node_id "identifier" 1 2 "a b" :=
  C3_amended "identifier" 1 2 "a+b" "a b" (by decide)

/-- Claim C8: for `const [count, setCount] = useState(0)` under a React
import, JavaScript detection yields exactly one `LibraryUsage`, with
parameters state/setter/initial and intent "reactive_state_management". -/
theorem C8_useState_detection :
    detect_dependencies c8code Language.JavaScript = .ok [react_useState_dep] ∧
    react_useState_dep.usage_patterns.map LibraryUsage.parameters =
      [[("state", "count"), ("setter", "setCount"), ("initial", "0")]] ∧
    react_useState_dep.usage_patterns.map LibraryUsage.semantic_intent =
      ["reactive_state_management"] ∧
    (((detect_dependencies c8code Language.JavaScript).toOption.getD []).flatMap
      LibraryDependency.usage_patterns).length = 1 :=
  ⟨by rfl, by rfl, by rfl, by rfl⟩

/-- Claim C9: parsing `function add(a, b) { return a + b; }` produces a
`Module` root with a single `Function` child named "add" whose children
are the `Variable`s "a" and "b" followed by a `Statement(Return)`
wrapping one `Expression(Arithmetic)` with the two `Expression(Variable)`
operands "a" and "b". -/
theorem C9_end_to_end :
    add_uir.node_type = .Module ∧
    add_uir.children.map (fun c => (c.node_type, c.name)) =
      [(NodeType.Function, some "add")] ∧
    (uir_child add_uir 0).children.map (fun c => (c.node_type, c.name)) =
      [(NodeType.Variable, some "a"), (NodeType.Variable, some "b"),
       (NodeType.Statement .Return, none)] ∧
    (uir_child (uir_child add_uir 0) 2).children.map UIRNode.node_type =
      [NodeType.Expression .Arithmetic] ∧
    (uir_child (uir_child (uir_child add_uir 0) 2) 0).children.map
        (fun c => (c.node_type, c.name)) =
      [(NodeType.Expression .Variable, some "a"),
       (NodeType.Expression .Variable, some "b")] :=
  ⟨rfl, rfl, rfl, rfl, rfl⟩

/-- Claim C5, counterexample: with both react import variants and both
hook usages present, `detect_dependencies` returns two records that share
the library name "react" — the result is not deduplicated per name. -/
theorem C5_counterexample :
    ((detect_dependencies c5code Language.JavaScript).toOption.getD []).map
      LibraryDependency.name = ["react", "react"] := by rfl

/-- A detected dependency always carries at least one usage. -/
theorem detect_library_usage_nonempty (code : List Char)
    (p : DetectionPattern) (d : LibraryDependency)
    (h : detect_library_usage code p = some d) : d.usage_patterns ≠ [] := by
  unfold detect_library_usage at h
  split at h
  · exact absurd h (by simp)
  · split at h
    · exact absurd h (by simp)
    · next hne =>
      obtain rfl := Option.some.inj h
      intro hnil
      have hg : gather_usages code p = [] := hnil
      rw [hg] at hne
      exact hne rfl

/-- Claim C5, amended: a library dependency is emitted only if at least
one usage signature matched; the result has one record per detection
pattern that fired and is not deduplicated by library name. -/
theorem C5_amended (code : String) (language : Language)
    (deps : List LibraryDependency)
    (h : detect_dependencies code language = .ok deps) :
    ∀ d ∈ deps, d.usage_patterns ≠ [] := by
  intro d hd
  unfold detect_dependencies at h
  cases halook : alookup detector_patterns language with
  | none =>
    rw [halook] at h
    exact absurd h (by simp)
  | some pats =>
    rw [halook] at h
    have hdeps : pats.filterMap (detect_library_usage code.toList) = deps :=
      Except.ok.inj h
    rcases List.mem_filterMap.mp (hdeps ▸ hd) with ⟨p, _, hsome⟩
    exact detect_library_usage_nonempty code.toList p d hsome

/-- Witness for `C5_amended` at the concrete `useState` input. -/
theorem C5_amended_witness : react_useState_dep.usage_patterns ≠ [] :=
  C5_amended c8code Language.JavaScript [react_useState_dep] (by rfl)
    react_useState_dep (List.Mem.head _)

/-- Claim C4, counterexample: the input tree has a healthy
`function_declaration` next to an isolated error node, yet the JavaScript
front end returns a childless "partial_parse" stub — the healthy sibling
is not normalized. -/
theorem C4_counterexample :
    ts_has_error c4_cst = true ∧
    c4_cst.children.map TSNode.isError = [false, true] ∧
    (JS.parse_source c4_cst).toOption.map UIRNode.children = some [] ∧
    (JS.parse_source c4_cst).toOption.map UIRNode.name =
      some (some "partial_parse") :=
  ⟨rfl, rfl, rfl, rfl⟩

/-- Claim C4, amended: the Rust front end excludes error children and
still normalizes their siblings (partial trees as successful output); the
JavaScript front end, whenever the grammar engine reports any error in
the tree, returns a successful childless stub `Module` named
"partial_parse" carrying a `parse_error` annotation instead. -/
theorem C4_amended :
    (∀ (pre post : List TSNode) (err : TSNode), err.isError = true →
      RustFE.convert_children (pre ++ err :: post) =
        RustFE.convert_children (pre ++ post)) ∧
    (∀ t : TSNode, ts_has_error t = true →
      ∃ msg, JS.parse_source t =
        .ok (.mk "error_recovery" .Module (some "partial_parse") []
          { Metadata.default with annotations := [("parse_error", .str msg)] }
          none)) := by
  constructor
  · intro pre post err herr
    induction pre with
    | nil => simp [RustFE.convert_children, herr]
    | cons c pre2 ih =>
      simp only [List.cons_append, RustFE.convert_children, List.append_eq]
      rw [ih]
  · intro t ht
    refine ⟨"Parse errors found: " ++ toString (JS.collect_error_nodes t).length ++
      " error nodes. First error at line " ++
      toString ((((JS.collect_error_nodes t).head?).map
        (fun n => n.startRow + 1)).getD 0), ?_⟩
    unfold JS.parse_source
    rw [ht]
    rfl

/-- Witness for `C4_amended` at concrete trees. -/
theorem C4_amended_witness :
    RustFE.convert_children ([c4_good_fn] ++ c4_err_node :: []) =
      RustFE.convert_children ([c4_good_fn] ++ []) ∧
    ∃ msg, JS.parse_source c4_cst =
      .ok (.mk "error_recovery" .Module (some "partial_parse") []
        { Metadata.default with annotations := [("parse_error", .str msg)] }
        none) :=
  ⟨C4_amended.1 [c4_good_fn] [] c4_err_node rfl, C4_amended.2 c4_cst rfl⟩

/-! ## Transformer lemmas -/

theorem apply_rule_ann_ne (nd : UIRNode) (pat : LibraryPattern)
    (rule : TransformRule) (usage : LibraryUsage) (kk : String)
    (h1 : "transformed_from" ≠ kk) (h2 : "transformed_to" ≠ kk)
    (h3 : "generated_code" ≠ kk) (h4 : "required_imports" ≠ kk)
    (h5 : "setup_code" ≠ kk) (h6 : "cleanup_code" ≠ kk) :
    alookup (apply_transform_rule nd pat rule usage).metadata.annotations kk =
      alookup nd.metadata.annotations kk := by
  rcases rule with ⟨tlib, tpat, tmpl, imps, setup, cleanup, pmaps⟩
  cases setup <;> cases cleanup <;> by_cases himp : imps.isEmpty <;>
    simp [apply_transform_rule, setAnnotations_annotations, alookup_ainsert,
      himp, h1, h2, h3, h4, h5, h6]

theorem fallback_ann_rmi (nd : UIRNode) (pat : LibraryPattern) (tl : Language) :
    alookup (create_fallback_implementation nd pat tl).metadata.annotations
      "requires_manual_implementation" = some (.str "true") := by
  simp [create_fallback_implementation, setAnnotations_annotations, alookup_ainsert]

theorem fallback_ann_fb (nd : UIRNode) (pat : LibraryPattern) (tl : Language) :
    ∃ c, alookup (create_fallback_implementation nd pat tl).metadata.annotations
      "fallback_implementation" = some (.str c) := by
  refine ⟨"// TODO: Implement equivalent of " ++ pat.library ++ ":" ++ pat.name ++
    "\n// Original behavior: " ++ pat.semantics.behavior, ?_⟩
  simp [create_fallback_implementation, setAnnotations_annotations, alookup_ainsert]

theorem fallback_ann_ne (nd : UIRNode) (pat : LibraryPattern) (tl : Language)
    (kk : String) (h1 : "fallback_implementation" ≠ kk)
    (h2 : "requires_manual_implementation" ≠ kk) :
    alookup (create_fallback_implementation nd pat tl).metadata.annotations kk =
      alookup nd.metadata.annotations kk := by
  simp [create_fallback_implementation, setAnnotations_annotations, alookup_ainsert,
    h1, h2]

/-- Each iteration of the usage loop either leaves the node alone,
applies a rule, or attaches the fallback annotations. -/
theorem transform_usage_step_cases (reg : LibraryRegistry) (lib eco : String)
    (tl : Language) (nd : UIRNode) (u : LibraryUsage) :
    transform_usage_step reg lib eco tl nd u = nd ∨
    (∃ pat rule, transform_usage_step reg lib eco tl nd u =
      apply_transform_rule nd pat rule u) ∨
    (∃ pat, transform_usage_step reg lib eco tl nd u =
      create_fallback_implementation nd pat tl) := by
  unfold transform_usage_step
  split
  · split
    · exact Or.inr (Or.inl ⟨_, _, rfl⟩)
    · exact Or.inr (Or.inr ⟨_, rfl⟩)
  · exact Or.inl rfl

theorem step_preserves_rmi (reg : LibraryRegistry) (lib eco : String)
    (tl : Language) (nd : UIRNode) (u : LibraryUsage)
    (h : alookup nd.metadata.annotations "requires_manual_implementation" =
      some (.str "true")) :
    alookup (transform_usage_step reg lib eco tl nd u).metadata.annotations
      "requires_manual_implementation" = some (.str "true") := by
  rcases transform_usage_step_cases reg lib eco tl nd u with
    h0 | ⟨pat, rule, h0⟩ | ⟨pat, h0⟩ <;> rw [h0]
  · exact h
  · rw [apply_rule_ann_ne nd pat rule u _ (by decide) (by decide) (by decide)
      (by decide) (by decide) (by decide)]
    exact h
  · exact fallback_ann_rmi nd pat tl

theorem step_preserves_fb (reg : LibraryRegistry) (lib eco : String)
    (tl : Language) (nd : UIRNode) (u : LibraryUsage)
    (h : ∃ c, alookup nd.metadata.annotations "fallback_implementation" =
      some (.str c)) :
    ∃ c, alookup (transform_usage_step reg lib eco tl nd u).metadata.annotations
      "fallback_implementation" = some (.str c) := by
  rcases transform_usage_step_cases reg lib eco tl nd u with
    h0 | ⟨pat, rule, h0⟩ | ⟨pat, h0⟩ <;> rw [h0]
  · exact h
  · rw [apply_rule_ann_ne nd pat rule u _ (by decide) (by decide) (by decide)
      (by decide) (by decide) (by decide)]
    exact h
  · exact fallback_ann_fb nd pat tl

theorem step_preserves_libdep (reg : LibraryRegistry) (lib eco : String)
    (tl : Language) (nd : UIRNode) (u : LibraryUsage) (v : Option Json)
    (h : alookup nd.metadata.annotations "library_dependency" = v) :
    alookup (transform_usage_step reg lib eco tl nd u).metadata.annotations
      "library_dependency" = v := by
  rcases transform_usage_step_cases reg lib eco tl nd u with
    h0 | ⟨pat, rule, h0⟩ | ⟨pat, h0⟩ <;> rw [h0]
  · exact h
  · rw [apply_rule_ann_ne nd pat rule u _ (by decide) (by decide) (by decide)
      (by decide) (by decide) (by decide)]
    exact h
  · rw [fallback_ann_ne nd pat tl _ (by decide) (by decide)]
    exact h

theorem foldl_preserves {α β : Type} (P : α → Prop) (f : α → β → α)
    (hf : ∀ a b, P a → P (f a b)) :
    ∀ (l : List β) (a : α), P a → P (l.foldl f a) := by
  intro l
  induction l with
  | nil => intro a h; exact h
  | cons b rest ih => intro a h; exact ih (f a b) (hf a b h)

/-- Once some usage in the list hits the fallback branch, the fold over
all usages leaves `requires_manual_implementation = "true"` and a
`fallback_implementation` comment on the node. -/
theorem foldl_step_establishes (reg : LibraryRegistry) (lib eco : String)
    (tl : Language) (usage : LibraryUsage) (pat : LibraryPattern)
    (hreg : get_pattern reg lib usage.pattern_name = some pat)
    (hnorule : alookup pat.transformations eco = none) :
    ∀ (us : List LibraryUsage) (nd : UIRNode), usage ∈ us →
      alookup ((us.foldl (transform_usage_step reg lib eco tl) nd)).metadata.annotations
        "requires_manual_implementation" = some (.str "true") ∧
      ∃ c, alookup ((us.foldl (transform_usage_step reg lib eco tl) nd)).metadata.annotations
        "fallback_implementation" = some (.str c) := by
  intro us
  induction us with
  | nil =>
    intro nd h
    exact absurd h (List.not_mem_nil usage)
  | cons u rest ih =>
    intro nd hmem
    rcases List.mem_cons.mp hmem with rfl | hmem2
    · have hstep : transform_usage_step reg lib eco tl nd usage =
          create_fallback_implementation nd pat tl := by
        unfold transform_usage_step
        rw [hreg]
        show (match alookup pat.transformations eco with
          | some rule => apply_transform_rule nd pat rule usage
          | none => create_fallback_implementation nd pat tl) =
            create_fallback_implementation nd pat tl
        rw [hnorule]
      simp only [List.foldl_cons, hstep]
      constructor
      · exact foldl_preserves
          (fun x => alookup x.metadata.annotations "requires_manual_implementation" =
            some (.str "true"))
          (transform_usage_step reg lib eco tl)
          (fun a b h => step_preserves_rmi reg lib eco tl a b h)
          rest _ (fallback_ann_rmi nd pat tl)
      · exact foldl_preserves
          (fun x => ∃ c, alookup x.metadata.annotations "fallback_implementation" =
            some (.str c))
          (transform_usage_step reg lib eco tl)
          (fun a b h => step_preserves_fb reg lib eco tl a b h)
          rest _ (fallback_ann_fb nd pat tl)
    · exact ih (transform_usage_step reg lib eco tl nd u) hmem2

/-- If no usage is registered, the usage fold is the identity. -/
theorem foldl_step_id (reg : LibraryRegistry) (lib eco : String) (tl : Language) :
    ∀ (us : List LibraryUsage) (nd : UIRNode),
      (∀ u ∈ us, get_pattern reg lib u.pattern_name = none) →
      us.foldl (transform_usage_step reg lib eco tl) nd = nd := by
  intro us
  induction us with
  | nil => intro nd _; rfl
  | cons u rest ih =>
    intro nd hall
    have hstep : transform_usage_step reg lib eco tl nd u = nd := by
      unfold transform_usage_step
      rw [hall u (List.mem_cons_self u rest)]
    simp only [List.foldl_cons, hstep]
    clear hstep
    exact ih nd (fun x hx => hall x (List.mem_cons_of_mem u hx))

theorem transform_step_decodes (reg : LibraryRegistry) (node : UIRNode)
    (tl : Language) (te : Option String) (s : String) (dep : LibraryDependency)
    (hann : alookup node.metadata.annotations "library_dependency" = some (.str s))
    (hdec : from_str_library_dependency s = .ok dep) :
    transform_step reg node tl te = .ok (transform_library_node reg node dep tl te) := by
  simp [transform_step, hann, hdec]

theorem transform_step_of_bad (reg : LibraryRegistry) (node : UIRNode)
    (tl : Language) (te : Option String)
    (h : metadata_has_undecodable_dep node.metadata = true) :
    ∃ m, transform_step reg node tl te = .error (.SerializationError m) := by
  cases hv : alookup node.metadata.annotations "library_dependency" with
  | none => simp [metadata_has_undecodable_dep, hv] at h
  | some v =>
    cases v with
    | str s =>
      cases hd : from_str_library_dependency s with
      | error e => exact ⟨e, by simp [transform_step, hv, hd]⟩
      | ok dep => simp [metadata_has_undecodable_dep, hv, hd] at h
    | null => simp [metadata_has_undecodable_dep, hv] at h
    | bool b => simp [metadata_has_undecodable_dep, hv] at h
    | num n => simp [metadata_has_undecodable_dep, hv] at h
    | arr xs => simp [metadata_has_undecodable_dep, hv] at h
    | obj fs => simp [metadata_has_undecodable_dep, hv] at h

theorem transform_step_of_good (reg : LibraryRegistry) (node : UIRNode)
    (tl : Language) (te : Option String)
    (h : metadata_has_undecodable_dep node.metadata = false) :
    ∃ t, transform_step reg node tl te = .ok t := by
  cases hv : alookup node.metadata.annotations "library_dependency" with
  | none => exact ⟨node, by simp [transform_step, hv]⟩
  | some v =>
    cases v with
    | str s =>
      cases hd : from_str_library_dependency s with
      | error e => simp [metadata_has_undecodable_dep, hv, hd] at h
      | ok dep =>
        exact ⟨transform_library_node reg node dep tl te,
          by simp [transform_step, hv, hd]⟩
    | null => exact ⟨node, by simp [transform_step, hv]⟩
    | bool b => exact ⟨node, by simp [transform_step, hv]⟩
    | num n => exact ⟨node, by simp [transform_step, hv]⟩
    | arr xs => exact ⟨node, by simp [transform_step, hv]⟩
    | obj fs => exact ⟨node, by simp [transform_step, hv]⟩

/-- Totality/abort analysis of the tree walk: a tree containing an
undecodable annotation makes the whole transform fail with a
`SerializationError`; a tree without one transforms successfully. -/
theorem transform_total_aux (reg : LibraryRegistry) (tl : Language)
    (te : Option String) :
    ∀ k : Nat,
      (∀ n : UIRNode, sizeOf n ≤ k →
        (tree_has_bad_dep n = true →
          ∃ m, transform reg n tl te = .error (.SerializationError m)) ∧
        (tree_has_bad_dep n = false → ∃ u, transform reg n tl te = .ok u)) ∧
      (∀ cs : List UIRNode, sizeOf cs ≤ k →
        (tree_has_bad_dep_list cs = true →
          ∃ m, transform_children reg cs tl te = .error (.SerializationError m)) ∧
        (tree_has_bad_dep_list cs = false →
          ∃ us, transform_children reg cs tl te = .ok us)) := by
  intro k
  induction k with
  | zero =>
    constructor
    · intro n hn
      cases n
      simp at hn
    · intro cs hcs
      cases cs <;> simp at hcs
  | succ k ih =>
    constructor
    · intro n hn
      cases n with
      | mk i nt nm cs md loc =>
        have hcs : sizeOf cs ≤ k := by
          simp at hn
          omega
        have hbadeq : tree_has_bad_dep (.mk i nt nm cs md loc) =
            (metadata_has_undecodable_dep md || tree_has_bad_dep_list cs) := rfl
        cases hmd : metadata_has_undecodable_dep md with
        | true =>
          obtain ⟨m, hm⟩ := transform_step_of_bad reg (.mk i nt nm cs md loc) tl te hmd
          constructor
          · intro _
            exact ⟨m, by simp [transform, hm]⟩
          · intro hok
            rw [hbadeq, hmd] at hok
            simp at hok
        | false =>
          obtain ⟨t, ht⟩ := transform_step_of_good reg (.mk i nt nm cs md loc) tl te hmd
          constructor
          · intro hbad
            rw [hbadeq, hmd] at hbad
            simp at hbad
            obtain ⟨m, hm⟩ := (ih.2 cs hcs).1 hbad
            exact ⟨m, by simp [transform, ht, hm]⟩
          · intro hok
            rw [hbadeq, hmd] at hok
            simp at hok
            obtain ⟨us, hus⟩ := (ih.2 cs hcs).2 hok
            exact ⟨t.setChildren us, by simp [transform, ht, hus]⟩
    · intro cs hcs
      cases cs with
      | nil =>
        constructor
        · intro hbad
          simp [tree_has_bad_dep_list] at hbad
        · intro _
          exact ⟨[], rfl⟩
      | cons c rest =>
        have h1 : sizeOf c ≤ k := by
          simp at hcs
          omega
        have h2 : sizeOf rest ≤ k := by
          simp at hcs
          omega
        have hbadeq : tree_has_bad_dep_list (c :: rest) =
            (tree_has_bad_dep c || tree_has_bad_dep_list rest) := rfl
        cases hbc : tree_has_bad_dep c with
        | true =>
          obtain ⟨m, hm⟩ := (ih.1 c h1).1 hbc
          constructor
          · intro _
            exact ⟨m, by simp [transform_children, hm]⟩
          · intro hok
            rw [hbadeq, hbc] at hok
            simp at hok
        | false =>
          obtain ⟨u, hu⟩ := (ih.1 c h1).2 hbc
          cases hbr : tree_has_bad_dep_list rest with
          | true =>
            obtain ⟨m, hm⟩ := (ih.2 rest h2).1 hbr
            constructor
            · intro _
              exact ⟨m, by simp [transform_children, hu, hm]⟩
            · intro hok
              rw [hbadeq, hbc, hbr] at hok
              simp at hok
          | false =>
            obtain ⟨us, hus⟩ := (ih.2 rest h2).2 hbr
            constructor
            · intro hbad
              rw [hbadeq, hbc, hbr] at hbad
              simp at hbad
            · intro _
              exact ⟨u :: us, by simp [transform_children, hu, hus]⟩

theorem transform_children_ok (reg : LibraryRegistry) (cs : List UIRNode)
    (tl : Language) (te : Option String)
    (h : tree_has_bad_dep_list cs = false) :
    ∃ us, transform_children reg cs tl te = .ok us :=
  ((transform_total_aux reg tl te (sizeOf cs)).2 cs le_rfl).2 h

/-- Claim C6, counterexample: on a node whose `library_dependency`
annotation does not deserialize, `transform` returns
`CoalesceError::SerializationError` (the `#[from] serde_json::Error`
variant), not a `TransformationError`. -/
theorem C6_counterexample :
    transform default_registry c6_bad_node Language.JavaScript none =
      .error (.SerializationError "invalid JSON") := by rfl

/-- Claim C6, amended: a `library_dependency` annotation string that does
not deserialize anywhere in the tree makes `transform` fail with a
`SerializationError`, aborting the entire transformation pass — no
partially transformed tree is returned for any ancestor. -/
theorem C6_amended (reg : LibraryRegistry) (n : UIRNode) (target_lang : Language)
    (target_ecosystem : Option String) (h : tree_has_bad_dep n = true) :
    ∃ m, transform reg n target_lang target_ecosystem =
      .error (.SerializationError m) :=
  ((transform_total_aux reg target_lang target_ecosystem (sizeOf n)).1 n le_rfl).1 h

/-- Witness for `C6_amended` at the concrete malformed node. -/
theorem C6_amended_witness :
    ∃ m, transform default_registry c6_bad_node Language.JavaScript none =
      .error (.SerializationError m) :=
  C6_amended default_registry c6_bad_node Language.JavaScript none (by rfl)

/-- Claim C1: for a node whose decodable `library_dependency` annotation
contains a usage whose (library, pattern name) is registered but whose
pattern has no transformation rule for the resolved target ecosystem,
`transform` succeeds and attaches `requires_manual_implementation =
"true"` plus a `fallback_implementation` comment to that node, keeping
the `library_dependency` annotation itself (the usage is not dropped). -/
theorem C1_fallback_guarantee (reg : LibraryRegistry) (node : UIRNode)
    (target_lang : Language) (target_ecosystem : Option String)
    (s : String) (dep : LibraryDependency) (usage : LibraryUsage)
    (pat : LibraryPattern)
    (hann : alookup node.metadata.annotations "library_dependency" =
      some (.str s))
    (hdec : from_str_library_dependency s = .ok dep)
    (husage : usage ∈ dep.usage_patterns)
    (hreg : get_pattern reg dep.name usage.pattern_name = some pat)
    (hnorule : alookup pat.transformations
      (resolve_ecosystem target_lang target_ecosystem) = none)
    (hkids : tree_has_bad_dep_list node.children = false) :
    ∃ out, transform reg node target_lang target_ecosystem = .ok out ∧
      alookup out.metadata.annotations "requires_manual_implementation" =
        some (.str "true") ∧
      (∃ c, alookup out.metadata.annotations "fallback_implementation" =
        some (.str c)) ∧
      alookup out.metadata.annotations "library_dependency" = some (.str s) := by
  cases node with
  | mk i nt nm cs md loc =>
    have hstep := transform_step_decodes reg (.mk i nt nm cs md loc)
      target_lang target_ecosystem s dep hann hdec
    obtain ⟨us, hus⟩ := transform_children_ok reg cs target_lang target_ecosystem hkids
    have hfold := foldl_step_establishes reg dep.name
      (resolve_ecosystem target_lang target_ecosystem) target_lang usage pat
      hreg hnorule dep.usage_patterns (.mk i nt nm cs md loc) husage
    have hlib := foldl_preserves
      (fun x => alookup x.metadata.annotations "library_dependency" =
        some (.str s))
      (transform_usage_step reg dep.name
        (resolve_ecosystem target_lang target_ecosystem) target_lang)
      (fun a b hh => step_preserves_libdep reg dep.name
        (resolve_ecosystem target_lang target_ecosystem) target_lang a b _ hh)
      dep.usage_patterns (.mk i nt nm cs md loc) hann
    refine ⟨(transform_library_node reg (.mk i nt nm cs md loc) dep
      target_lang target_ecosystem).setChildren us, ?_, ?_, ?_, ?_⟩
    · simp [transform, hstep, hus]
    · rw [setChildren_metadata]
      exact hfold.1
    · rw [setChildren_metadata]
      exact hfold.2
    · rw [setChildren_metadata]
      exact hlib

/-- Witness for `C1_fallback_guarantee`: the react `useState` dependency
transformed towards Rust (default ecosystem "std", for which react
`useState` has no rule). -/
theorem C1_fallback_guarantee_witness :
    ∃ out, transform default_registry c1_node Language.Rust none = .ok out ∧
      alookup out.metadata.annotations "requires_manual_implementation" =
        some (.str "true") ∧
      (∃ c, alookup out.metadata.annotations "fallback_implementation" =
        some (.str c)) ∧
      alookup out.metadata.annotations "library_dependency" =
        some (.str react_dep_json) :=
  C1_fallback_guarantee default_registry c1_node Language.Rust none
    react_dep_json react_useState_dep react_useState_usage react_useState_pattern
    (by rfl) (by rfl) (List.Mem.head _) (by rfl) (by rfl) (by rfl)

/-- Claim C10: a decodable `library_dependency` annotation none of whose
usages are registered leaves the node completely unchanged (no
annotations, no error); in particular the built-in detector emits C
socket usages under pattern name "socket" while the built-in registry
only registers "tcp_socket" for library "socket", so those usages receive
no annotation at all. -/
theorem C10_unregistered_no_op :
    (∀ (reg : LibraryRegistry) (node : UIRNode) (target_lang : Language)
        (target_ecosystem : Option String) (s : String) (dep : LibraryDependency),
      alookup node.metadata.annotations "library_dependency" = some (.str s) →
      from_str_library_dependency s = .ok dep →
      (∀ u ∈ dep.usage_patterns, get_pattern reg dep.name u.pattern_name = none) →
      node.children = [] →
      transform reg node target_lang target_ecosystem = .ok node) ∧
    get_pattern default_registry "socket" "socket" = none ∧
    (get_pattern default_registry "socket" "tcp_socket").isSome = true ∧
    c_detection_patterns.flatMap (fun p => p.usage_patterns.map UsagePattern.name) =
      ["socket"] := by
  refine ⟨?_, by rfl, by rfl, by rfl⟩
  intro reg node tl te s dep hann hdec hunreg hleaf
  cases node with
  | mk i nt nm cs md loc =>
    have hcs : cs = [] := hleaf
    subst hcs
    have hstep := transform_step_decodes reg (.mk i nt nm [] md loc) tl te s dep
      hann hdec
    have htln : transform_library_node reg (.mk i nt nm [] md loc) dep tl te =
        .mk i nt nm [] md loc := by
      unfold transform_library_node
      exact foldl_step_id reg dep.name (resolve_ecosystem tl te) tl
        dep.usage_patterns _ hunreg
    rw [htln] at hstep
    simp [transform, hstep, transform_children, UIRNode.setChildren]

/-- Witness for `C10_unregistered_no_op` on the detected-but-unregistered
C socket dependency. -/
theorem C10_unregistered_no_op_witness :
    transform default_registry c10_node Language.Rust none = .ok c10_node :=
  C10_unregistered_no_op.1 default_registry c10_node Language.Rust none
    c_socket_dep_json c_socket_dep (by rfl) (by rfl) (by decide) (by rfl)

/-! ## Registry suggestion ranking -/

theorem insertByConfidence_front (x : TransformationSuggestion)
    (l : List TransformationSuggestion)
    (h : ∀ y ∈ l, y.confidence ≤ x.confidence) :
    insertByConfidence x l = x :: l := by
  cases l with
  | nil => rfl
  | cons y ys => simp [insertByConfidence, h y (List.mem_cons_self y ys)]

theorem sortByConfidenceDesc_const (c : Rat) :
    ∀ l : List TransformationSuggestion,
      (∀ y ∈ l, y.confidence = c) → sortByConfidenceDesc l = l := by
  intro l
  induction l with
  | nil => intro _; rfl
  | cons x xs ih =>
    intro h
    have hxs := ih (fun y hy => h y (List.mem_cons_of_mem x hy))
    simp only [sortByConfidenceDesc, hxs]
    apply insertByConfidence_front
    intro y hy
    rw [h y (List.mem_cons_of_mem x hy), h x (List.mem_cons_self x xs)]

theorem equivalent_suggestions_conf (reg : LibraryRegistry) (pat : LibraryPattern)
    (source_library target_ecosystem : String) :
    ∀ e ∈ equivalent_suggestions reg pat source_library target_ecosystem,
      e.confidence = (4 : Rat) / 5 ∧ e.suggestion_type = .SemanticEquivalent := by
  intro e he
  rcases List.mem_filterMap.mp he with ⟨q, _, hfq⟩
  by_cases hc : q.ecosystem = target_ecosystem ∧ q.library ≠ source_library
  · rw [if_pos hc] at hfq
    obtain rfl := Option.some.inj hfq
    exact ⟨rfl, rfl⟩
  · rw [if_neg hc] at hfq
    exact absurd hfq (by simp)

theorem chain_desc_of_const (d : TransformationSuggestion) (c : Rat) :
    ∀ es : List TransformationSuggestion, c ≤ d.confidence →
      (∀ e ∈ es, e.confidence = c) →
      List.Chain' (fun a b => b.confidence ≤ a.confidence) (d :: es) := by
  intro es
  induction es generalizing d with
  | nil => intro _ _; simp
  | cons e es2 ih =>
    intro hd h
    rw [List.chain'_cons]
    constructor
    · rw [h e (List.mem_cons_self e es2)]
      exact hd
    · exact ih e (by rw [h e (List.mem_cons_self e es2)])
        (fun y hy => h y (List.mem_cons_of_mem e hy))

/-- Claim C7: when a direct rule for the target ecosystem exists,
`get_transformation_suggestions` returns the direct suggestion
(confidence 1.0) strictly first, followed by exactly the
semantic-equivalent suggestions (confidence 0.8) in registration order,
the whole list sorted by descending confidence. -/
theorem C7_suggestion_ranking (reg : LibraryRegistry)
    (source_library pattern_name target_ecosystem : String)
    (pat : LibraryPattern) (rule : TransformRule)
    (hpat : get_pattern reg source_library pattern_name = some pat)
    (hrule : alookup pat.transformations target_ecosystem = some rule) :
    get_transformation_suggestions reg source_library pattern_name target_ecosystem =
      direct_suggestion rule target_ecosystem ::
        equivalent_suggestions reg pat source_library target_ecosystem ∧
    (direct_suggestion rule target_ecosystem).confidence = 1 ∧
    (∀ e ∈ equivalent_suggestions reg pat source_library target_ecosystem,
      e.confidence = (4 : Rat) / 5 ∧ e.suggestion_type = .SemanticEquivalent) ∧
    List.Chain' (fun a b => b.confidence ≤ a.confidence)
      (get_transformation_suggestions reg source_library pattern_name
        target_ecosystem) := by
  have hconf := equivalent_suggestions_conf reg pat source_library target_ecosystem
  have hsorted : sortByConfidenceDesc
      (equivalent_suggestions reg pat source_library target_ecosystem) =
      equivalent_suggestions reg pat source_library target_ecosystem :=
    sortByConfidenceDesc_const ((4 : Rat) / 5) _ (fun y hy => (hconf y hy).1)
  have hmain : get_transformation_suggestions reg source_library pattern_name
      target_ecosystem =
      direct_suggestion rule target_ecosystem ::
        equivalent_suggestions reg pat source_library target_ecosystem := by
    unfold get_transformation_suggestions
    simp only [hpat, hrule]
    show sortByConfidenceDesc ([direct_suggestion rule target_ecosystem] ++
      equivalent_suggestions reg pat source_library target_ecosystem) = _
    rw [List.singleton_append]
    simp only [sortByConfidenceDesc, hsorted]
    apply insertByConfidence_front
    intro y hy
    rw [(hconf y hy).1]
    show (4 : Rat) / 5 ≤ (direct_suggestion rule target_ecosystem).confidence
    norm_num [direct_suggestion]
  refine ⟨hmain, rfl, hconf, ?_⟩
  rw [hmain]
  exact chain_desc_of_const _ ((4 : Rat) / 5) _ (by norm_num [direct_suggestion])
    (fun e he => (hconf e he).1)

/-- Witness for `C7_suggestion_ranking`: react `useState` towards "vue"
in a registry that also holds a semantically equivalent "vuex" pattern. -/
theorem C7_suggestion_ranking_witness :
    get_transformation_suggestions c7_registry "react" "useState" "vue" =
      direct_suggestion c7_direct_rule "vue" ::
        equivalent_suggestions c7_registry react_useState_pattern "react" "vue" ∧
    (direct_suggestion c7_direct_rule "vue").confidence = 1 ∧
    (∀ e ∈ equivalent_suggestions c7_registry react_useState_pattern "react" "vue",
      e.confidence = (4 : Rat) / 5 ∧ e.suggestion_type = .SemanticEquivalent) ∧
    List.Chain' (fun a b => b.confidence ≤ a.confidence)
      (get_transformation_suggestions c7_registry "react" "useState" "vue") :=
  C7_suggestion_ranking c7_registry "react" "useState" "vue"
    react_useState_pattern c7_direct_rule (by rfl) (by rfl)

end Coalesce
